import Mathlib

/-!
# XSN masternode: active-node state machine and registry bookkeeping

A shallow embedding of `src/activemasternode.cpp` (the `CActiveMasternode`
state machine) and of the inline members of `CMasternodeMan` declared in
`src/masternodeman.h`, followed by theorems about them.

Conventions of the embedding

* C++ member state is an explicit record (`State`, `CMasternodeMan`) that every
  operation takes and returns.
* Everything the code asks of a collaborator whose code is not in the two
  source files (wallet, chain parameters, sync status, network, signer, the
  out-of-line members of the registry) is a field of `Env`: one answer per
  question for the duration of a call.
* `std::map<K, V>` is an association list `List (K × V)`; `std::vector<T>` is
  `List T`; `int`, `int64_t` and `CAmount` are `Int`; ports and hashes are `Nat`.
* Log output (`LogPrintf`) is not part of the state.
-/

namespace XSN

/-! ## Data model -/

/-- Reference to a transaction output (`COutPoint`). -/
structure COutPoint where
  hash : Nat
  n : Nat
deriving DecidableEq, Inhabited, Repr

/-- Transaction input (`CTxIn`); the collateral reference of a masternode. -/
structure CTxIn where
  prevout : COutPoint
  scriptSig : List Nat
  nSequence : Nat
deriving DecidableEq, Inhabited, Repr

/-- Network endpoint (`CService`): an address and a port. -/
structure CService where
  ip : String
  port : Nat
deriving DecidableEq, Inhabited, Repr

abbrev CPubKey := List Nat
abbrev CKey := List Nat
abbrev uint256 := Nat
abbrev CNetAddr := String
abbrev CScript := List Nat

/-- Modelled from the spec: the Ping message, "signer reference, signature,
timestamp" (the class `CMasternodePing` is declared in `masternode.h`, which is
not among the sources); `blockHash` is the chain anchor the message carries. -/
structure CMasternodePing where
  vin : CTxIn
  blockHash : uint256
  sigTime : Int
  vchSig : List Nat
deriving DecidableEq, Inhabited, Repr

/-- Modelled from the spec: a registry entry, "identity key → endpoint, both
public keys, protocol version, last Ping, last-broadcast time, derived status,
last-paid time/height, watchdog-vote timestamp" (the class `CMasternode` is
declared in `masternode.h`, which is not among the sources). -/
structure CMasternode where
  vin : CTxIn
  addr : CService
  pubKeyCollateralAddress : CPubKey
  pubKeyMasternode : CPubKey
  vchSig : List Nat
  sigTime : Int
  lastPing : CMasternodePing
  nActiveState : Int
  protocolVersion : Int
  nTimeLastPaid : Int
  nBlockLastPaid : Int
  nTimeLastWatchdogVote : Int
deriving DecidableEq, Inhabited, Repr

/-- Modelled from the spec: the Broadcast message, "identity key, network
endpoint, collateral public key, operational public key, declared protocol
version, embedded last Ping, signature, creation timestamp" (the class
`CMasternodeBroadcast` is declared in `masternode.h`, which is not among the
sources). -/
structure CMasternodeBroadcast where
  vin : CTxIn
  addr : CService
  pubKeyCollateralAddress : CPubKey
  pubKeyMasternode : CPubKey
  vchSig : List Nat
  sigTime : Int
  lastPing : CMasternodePing
  protocolVersion : Int
deriving DecidableEq, Inhabited, Repr

/-- Modelled from the spec: `CMasternodeBroadcast(const CMasternode&)`, the
announcement that describes a registry entry: the fields the two records share
are copied. -/
def CMasternodeBroadcast.ofMasternode (mn : CMasternode) : CMasternodeBroadcast :=
  { vin := mn.vin
    addr := mn.addr
    pubKeyCollateralAddress := mn.pubKeyCollateralAddress
    pubKeyMasternode := mn.pubKeyMasternode
    vchSig := mn.vchSig
    sigTime := mn.sigTime
    lastPing := mn.lastPing
    protocolVersion := mn.protocolVersion }

/-! ## `std::map` as an association list -/

/-- `std::map::count`. -/
def mapCount {K V : Type} [DecidableEq K] (m : List (K × V)) (k : K) : Nat :=
  if m.any (fun kv => decide (kv.1 = k)) then 1 else 0

/-- `std::map::insert(make_pair(k, v))`: a key that is present keeps its value. -/
def mapInsert {K V : Type} [DecidableEq K] (m : List (K × V)) (k : K) (v : V) : List (K × V) :=
  if mapCount m k = 0 then m ++ [(k, v)] else m

/-- In-place update of the value stored under `k` (`m[k].field = ...` for a key
that is present). -/
def mapModify {K V : Type} [DecidableEq K] (m : List (K × V)) (k : K) (f : V → V) : List (K × V) :=
  m.map (fun kv => if kv.1 = k then (kv.1, f kv.2) else kv)

/-! ## The registry `CMasternodeMan` (masternodeman.h) -/

/-- Data members of `CMasternodeMan` (masternodeman.h lines 37-60); the two
critical sections carry no data. -/
structure CMasternodeMan where
  vMasternodes : List CMasternode
  mAskedUsForMasternodeList : List (CNetAddr × Int)
  mWeAskedForMasternodeList : List (CNetAddr × Int)
  mWeAskedForMasternodeListEntry : List (COutPoint × Int)
  vecDirtyGovernanceObjectHashes : List uint256
  nLastWatchdogVoteTime : Int
  mapSeenMasternodeBroadcast : List (uint256 × CMasternodeBroadcast)
  mapSeenMasternodePing : List (uint256 × CMasternodePing)
  nDsqCount : Int
  dummyScriptPubkey : CScript
deriving DecidableEq, Inhabited, Repr

namespace CMasternodeMan

/-- `AddDirtyGovernanceObjectHash` (masternodeman.h lines 167-171). -/
def AddDirtyGovernanceObjectHash (m : CMasternodeMan) (nHash : uint256) : CMasternodeMan :=
  { m with vecDirtyGovernanceObjectHashes := m.vecDirtyGovernanceObjectHashes ++ [nHash] }

/-- `GetAndClearDirtyGovernanceObjectHashes` (masternodeman.h lines 173-179):
the returned vector and the registry afterwards. -/
def GetAndClearDirtyGovernanceObjectHashes (m : CMasternodeMan) : List uint256 × CMasternodeMan :=
  let vecTmp := m.vecDirtyGovernanceObjectHashes
  (vecTmp, { m with vecDirtyGovernanceObjectHashes := [] })

/-- Modelled from the spec: `Clear()`, defined in masternodeman.cpp which is not
among the sources, is the "full registry reset" that leaves the registry
"empty": no entries, empty ask-timestamp maps, empty seen-message caches, and
the two counters back at zero. -/
def Clear (m : CMasternodeMan) : CMasternodeMan :=
  { m with
    vMasternodes := []
    mAskedUsForMasternodeList := []
    mWeAskedForMasternodeList := []
    mWeAskedForMasternodeListEntry := []
    mapSeenMasternodeBroadcast := []
    mapSeenMasternodePing := []
    nDsqCount := 0
    nLastWatchdogVoteTime := 0 }

/-- The fields of a persisted snapshot, in the order `SerializationOp` reads and
writes them (masternodeman.h lines 69-84). -/
structure Snapshot where
  strVersion : String
  vMasternodes : List CMasternode
  mAskedUsForMasternodeList : List (CNetAddr × Int)
  mWeAskedForMasternodeList : List (CNetAddr × Int)
  mWeAskedForMasternodeListEntry : List (COutPoint × Int)
  nLastWatchdogVoteTime : Int
  nDsqCount : Int
  mapSeenMasternodeBroadcast : List (uint256 × CMasternodeBroadcast)
  mapSeenMasternodePing : List (uint256 × CMasternodePing)
deriving DecidableEq, Inhabited, Repr

/-- `SerializationOp` with a reading `ser_action` (masternodeman.h lines 65-89):
every `READWRITE` stores the value read into the member, then a version tag
other than `SERIALIZATION_VERSION_STRING` resets the registry. The constant is
defined in masternodeman.cpp and is taken as a parameter. -/
def SerializationOp_read (SERIALIZATION_VERSION_STRING : String) (s : Snapshot)
    (m : CMasternodeMan) : CMasternodeMan :=
  let strVersion := s.strVersion
  let m := { m with
    vMasternodes := s.vMasternodes
    mAskedUsForMasternodeList := s.mAskedUsForMasternodeList
    mWeAskedForMasternodeList := s.mWeAskedForMasternodeList
    mWeAskedForMasternodeListEntry := s.mWeAskedForMasternodeListEntry
    nLastWatchdogVoteTime := s.nLastWatchdogVoteTime
    nDsqCount := s.nDsqCount
    mapSeenMasternodeBroadcast := s.mapSeenMasternodeBroadcast
    mapSeenMasternodePing := s.mapSeenMasternodePing }
  if strVersion ≠ SERIALIZATION_VERSION_STRING then Clear m else m

/-- `SerializationOp` with a writing `ser_action` (masternodeman.h lines 65-89):
the tag written is `SERIALIZATION_VERSION_STRING`, the members follow. -/
def SerializationOp_write (SERIALIZATION_VERSION_STRING : String) (m : CMasternodeMan) :
    Snapshot :=
  let strVersion := SERIALIZATION_VERSION_STRING
  { strVersion := strVersion
    vMasternodes := m.vMasternodes
    mAskedUsForMasternodeList := m.mAskedUsForMasternodeList
    mWeAskedForMasternodeList := m.mWeAskedForMasternodeList
    mWeAskedForMasternodeListEntry := m.mWeAskedForMasternodeListEntry
    nLastWatchdogVoteTime := m.nLastWatchdogVoteTime
    nDsqCount := m.nDsqCount
    mapSeenMasternodeBroadcast := m.mapSeenMasternodeBroadcast
    mapSeenMasternodePing := m.mapSeenMasternodePing }

/-- First entry of a list that satisfies `p`, with its position: the result of
a linear scan that returns a pointer into the vector. -/
def findEntry (p : CMasternode → Bool) : List CMasternode → Option (Nat × CMasternode)
  | [] => none
  | mn :: rest =>
    if p mn then some (0, mn)
    else match findEntry p rest with
      | some (i, x) => some (i + 1, x)
      | none => none

/-- Modelled from the spec: `Find(const CTxIn&)`, defined in masternodeman.cpp
which is not among the sources: lookup "by identity key", the identity key
being the collateral reference (`vin.prevout`). -/
def Find_vin (m : CMasternodeMan) (vin : CTxIn) : Option (Nat × CMasternode) :=
  findEntry (fun mn => decide (mn.vin.prevout = vin.prevout)) m.vMasternodes

/-- Modelled from the spec: `Find(const CPubKey&)`, defined in masternodeman.cpp
which is not among the sources: lookup by the operational public key. -/
def Find_pubKeyMasternode (m : CMasternodeMan) (pubKeyMasternode : CPubKey) :
    Option (Nat × CMasternode) :=
  findEntry (fun mn => decide (mn.pubKeyMasternode = pubKeyMasternode)) m.vMasternodes

/-- Write through a pointer returned by `Find`: the entry at position `i` is
replaced. -/
def setEntry (m : CMasternodeMan) (i : Nat) (mn : CMasternode) : CMasternodeMan :=
  { m with vMasternodes := m.vMasternodes.set i mn }

end CMasternodeMan

/-! ## Collaborators of the active-node state machine -/

/-- Modelled from the spec: the five states of the active-node state machine
(`ACTIVE_MASTERNODE_*`, defined in activemasternode.h which is not among the
sources). -/
inductive ActiveStatus where
  | ACTIVE_MASTERNODE_INITIAL
  | ACTIVE_MASTERNODE_SYNC_IN_PROCESS
  | ACTIVE_MASTERNODE_INPUT_TOO_NEW
  | ACTIVE_MASTERNODE_NOT_CAPABLE
  | ACTIVE_MASTERNODE_STARTED
deriving DecidableEq, Inhabited, Repr

open ActiveStatus

/-- Modelled from the spec: the identifier of the primary network
(`CBaseChainParams::MAIN`, defined outside the sources). -/
def CBaseChainParams.MAIN : String := "main"

/-- Modelled from the spec: the identifier of the private test network
(`CBaseChainParams::REGTEST`, defined outside the sources). -/
def CBaseChainParams.REGTEST : String := "regtest"

/-- What the code hands to the network collaborator. -/
inductive NetEvent where
  | ConnectNode (addr : CService)
  | AddrmanAdd (addr : CService)
  | RelayBroadcast (mnb : CMasternodeBroadcast)
  | RelayPing (mnp : CMasternodePing)
deriving DecidableEq, Inhabited, Repr

/-- Answers of the collaborators during one call: configuration globals, chain
parameters, sync status, wallet, network, signer, and the members of
`CMasternode` and `CMasternodeMan` that are defined outside the sources. -/
structure Env where
  /-- Global `fMasterNode`. -/
  fMasterNode : Bool
  /-- Global `strMasterNodeAddr`. -/
  strMasterNodeAddr : String
  /-- Global `fImporting`. -/
  fImporting : Bool
  /-- Global `fReindex`. -/
  fReindex : Bool
  /-- `Params().NetworkIDString()`. -/
  NetworkIDString : String
  /-- `Params(CBaseChainParams::MAIN).GetDefaultPort()`. -/
  mainnetDefaultPort : Int
  /-- `Params().GetConsensus().nMasternodeMinimumConfirmations`. -/
  nMasternodeMinimumConfirmations : Int
  PROTOCOL_VERSION : Int
  MASTERNODE_PING_SECONDS : Int
  /-- `masternodeSync.IsBlockchainSynced()`. -/
  IsBlockchainSynced : Bool
  /-- `pwalletMain->IsLocked()`. -/
  IsLocked : Bool
  /-- `pwalletMain->GetBalance()`. -/
  GetBalance : Int
  /-- `pwalletMain->GetMasternodeVinAndKeys(vin, pubKey, key)`: from the current
  value of the in-out argument `vin` to the return value and the three values
  left in the reference arguments. -/
  GetMasternodeVinAndKeys : CTxIn → Bool × CTxIn × CPubKey × CKey
  /-- `pwalletMain->GetMasternodeVinAndKeys(vin, pubKey, key, strTxHash,
  strOutputIndex)` on a default-constructed `vin`. -/
  GetMasternodeVinAndKeysAt : String → String → Bool × CTxIn × CPubKey × CKey
  /-- `GetLocal(service)`: from the current value of the in-out argument to the
  return value and the value left in it. -/
  GetLocal : CService → Bool × CService
  /-- `CService(std::string)`. -/
  CService_ofString : String → CService
  /-- `ConnectNode((CAddress)service, NULL, true)` succeeded. -/
  ConnectNode : CService → Bool
  /-- `GetInputAge(vin)`. -/
  GetInputAge : CTxIn → Int
  /-- `GetAdjustedTime()`. -/
  GetAdjustedTime : Int
  /-- Hash of the block a new ping is anchored to. -/
  pingBlockHash : uint256
  /-- Signer used by `CMasternodePing::Sign`: success, signature time and
  signature for a ping under a key pair. -/
  SignPing : CMasternodePing → CKey → CPubKey → Bool × Int × List Nat
  /-- Signer used by `CMasternodeBroadcast::Sign`: success, signature time and
  signature for a broadcast under the collateral key. -/
  SignBroadcast : CMasternodeBroadcast → CKey → Bool × Int × List Nat
  /-- `darkSendSigner.SetKey(strSecret, errorMessage, key, pubkey)`: from the
  secret and the incoming error message to the return value, the error message
  and the key pair left in the reference arguments. -/
  SetKey : String → String → Bool × String × CKey × CPubKey
  /-- `CMasternodeBroadcast()`. -/
  CMasternodeBroadcast_empty : CMasternodeBroadcast
  /-- `CMasternode::Check()`: the entry with its derived status recomputed. -/
  Check : CMasternode → CMasternode
  /-- `CMasternode::IsEnabled()`. -/
  IsEnabled : CMasternode → Bool
  /-- `CMasternode::IsPreEnabled()`. -/
  IsPreEnabled : CMasternode → Bool
  /-- `CMasternode::IsPingedWithin(seconds, now)`. -/
  IsPingedWithin : CMasternode → Int → Int → Bool
  /-- `CMasternodeMan::UpdateMasternodeList(mnb)`. -/
  UpdateMasternodeList : CMasternodeMan → CMasternodeBroadcast → CMasternodeMan
  /-- `CMasternodeBroadcast::GetHash()`. -/
  GetHash_mnb : CMasternodeBroadcast → uint256
  /-- `CMasternodePing::GetHash()`. -/
  GetHash_mnp : CMasternodePing → uint256
  /-- `CService::ToString()`. -/
  CService_ToString : CService → String
  /-- `CTxIn::ToString()`. -/
  CTxIn_ToString : CTxIn → String

/-- Members of `CActiveMasternode` together with the state of the collaborators
it changes: the registry `mnodeman`, the wallet's set of locked outputs, and
the calls made to the network. -/
structure State where
  status : ActiveStatus
  notCapableReason : String
  vin : CTxIn
  service : CService
  pubKeyMasternode : CPubKey
  keyMasternode : CKey
  mnodeman : CMasternodeMan
  setLockedCoins : List COutPoint
  net : List NetEvent
deriving DecidableEq, Inhabited, Repr

/-- Modelled from the spec: `CMasternodePing(CTxIn&)`, "build a Ping" for an
identity key: an unsigned ping for `vinNew` stamped with the current time (the
constructor is defined in masternode.cpp, which is not among the sources). -/
def CMasternodePing.ofVin (env : Env) (vinNew : CTxIn) : CMasternodePing :=
  { vin := vinNew, blockHash := env.pingBlockHash, sigTime := env.GetAdjustedTime, vchSig := [] }

/-- Modelled from the spec: `CMasternodePing::Sign`, "signing identity key and
timestamp with the operational private key": the signature time and the
signature are stored in the ping, the return value says whether signing
succeeded (defined in masternode.cpp, which is not among the sources). -/
def CMasternodePing.Sign (env : Env) (mnp : CMasternodePing) (keyMasternode : CKey)
    (pubKeyMasternode : CPubKey) : Bool × CMasternodePing :=
  let r := env.SignPing mnp keyMasternode pubKeyMasternode
  (r.1, { mnp with sigTime := r.2.1, vchSig := r.2.2 })

/-- Modelled from the spec: the five-argument constructor of
`CMasternodeBroadcast`: an unsigned announcement of the given endpoint,
identity key, public keys and protocol version, with no ping yet (defined in
masternode.cpp, which is not among the sources). -/
def CMasternodeBroadcast.ofParts (env : Env) (service : CService) (vin : CTxIn)
    (pubKeyCollateralAddress pubKeyMasternode : CPubKey) (protocolVersion : Int) :
    CMasternodeBroadcast :=
  { vin := vin
    addr := service
    pubKeyCollateralAddress := pubKeyCollateralAddress
    pubKeyMasternode := pubKeyMasternode
    vchSig := []
    sigTime := env.GetAdjustedTime
    lastPing := env.CMasternodeBroadcast_empty.lastPing
    protocolVersion := protocolVersion }

/-- Modelled from the spec: `CMasternodeBroadcast::Sign`, "signing endpoint,
identity key, both public keys, protocol version, embedded Ping with the
collateral private key": the signature time and the signature are stored in
the broadcast (defined in masternode.cpp, which is not among the sources). -/
def CMasternodeBroadcast.Sign (env : Env) (mnb : CMasternodeBroadcast)
    (keyCollateralAddress : CKey) : Bool × CMasternodeBroadcast :=
  let r := env.SignBroadcast mnb keyCollateralAddress
  (r.1, { mnb with sigTime := r.2.1, vchSig := r.2.2 })

/-- Modelled from the spec: `CWallet::LockCoin`, "output-locking to prevent
accidental spend": the output joins the wallet's set of locked outputs. -/
def LockCoin (setLockedCoins : List COutPoint) (output : COutPoint) : List COutPoint :=
  if output ∈ setLockedCoins then setLockedCoins else setLockedCoins ++ [output]

/-! ## `CActiveMasternode` (activemasternode.cpp) -/

/-- `CActiveMasternode::GetStatus` (activemasternode.cpp lines 141-150). -/
def GetStatus (env : Env) (s : State) : String :=
  match s.status with
  | ACTIVE_MASTERNODE_INITIAL => "Node just started, not yet activated"
  | ACTIVE_MASTERNODE_SYNC_IN_PROCESS =>
    "Sync in progress. Must wait until sync is complete to start Masternode"
  | ACTIVE_MASTERNODE_INPUT_TOO_NEW =>
    "Masternode input must have at least " ++ toString env.nMasternodeMinimumConfirmations
      ++ " confirmations"
  | ACTIVE_MASTERNODE_NOT_CAPABLE => "Not capable masternode: " ++ s.notCapableReason
  | ACTIVE_MASTERNODE_STARTED => "Masternode successfully started"

/-- `CActiveMasternode::EnableHotColdMasterNode` (activemasternode.cpp lines
270-283): the return value and the state afterwards. -/
def EnableHotColdMasterNode (env : Env) (newVin : CTxIn) (newService : CService)
    (s : State) : Bool × State :=
  if env.fMasterNode = false then (false, s)
  else
    let s := { s with status := ACTIVE_MASTERNODE_STARTED }
    let s := { s with vin := newVin }
    let s := { s with service := newService }
    (true, s)

/-- `CActiveMasternode::SendMasternodePing` (activemasternode.cpp lines
152-197): the return value, the error message left in the reference argument,
and the state afterwards. -/
def SendMasternodePing (env : Env) (errorMessage : String) (s : State) :
    Bool × String × State :=
  if s.status ≠ ACTIVE_MASTERNODE_STARTED then
    (false, "Masternode is not in a running status", s)
  else
    let mnp := CMasternodePing.ofVin env s.vin
    let signed := CMasternodePing.Sign env mnp s.keyMasternode s.pubKeyMasternode
    let mnp := signed.2
    if signed.1 = false then
      (false, "Couldn't sign Masternode Ping", s)
    else
      match s.mnodeman.Find_vin s.vin with
      | some (i, pmn) =>
        if env.IsPingedWithin pmn env.MASTERNODE_PING_SECONDS mnp.sigTime = true then
          (false, "Too early to send Masternode Ping", s)
        else
          let pmn := { pmn with lastPing := mnp }
          let man := s.mnodeman.setEntry i pmn
          let man := { man with
            mapSeenMasternodePing := mapInsert man.mapSeenMasternodePing (env.GetHash_mnp mnp) mnp }
          let mnb := CMasternodeBroadcast.ofMasternode pmn
          let hash := env.GetHash_mnb mnb
          let man :=
            if mapCount man.mapSeenMasternodeBroadcast hash ≠ 0 then
              { man with
                mapSeenMasternodeBroadcast :=
                  mapModify man.mapSeenMasternodeBroadcast hash
                    (fun b => { b with lastPing := mnp }) }
            else man
          (true, errorMessage, { s with mnodeman := man, net := s.net ++ [NetEvent.RelayPing mnp] })
      | none =>
        let errorMessage :=
          "PrivateSend Masternode List doesn't include our Masternode, shutting down Masternode pinging service! "
            ++ env.CTxIn_ToString s.vin
        (false, errorMessage,
          { s with status := ACTIVE_MASTERNODE_NOT_CAPABLE, notCapableReason := errorMessage })

/-- The key-argument `CActiveMasternode::CreateBroadcast` (activemasternode.cpp
lines 245-267): the return value and the values left in the reference
arguments `errorMessage` and `mnb`. -/
def CreateBroadcast (env : Env) (vin : CTxIn) (service : CService)
    (keyCollateralAddress : CKey) (pubKeyCollateralAddress : CPubKey)
    (keyMasternode : CKey) (pubKeyMasternode : CPubKey)
    (errorMessage : String) (mnb : CMasternodeBroadcast) :
    Bool × String × CMasternodeBroadcast :=
  if (env.fImporting || env.fReindex) = true then (false, errorMessage, mnb)
  else
    let mnp := CMasternodePing.ofVin env vin
    let signed := CMasternodePing.Sign env mnp keyMasternode pubKeyMasternode
    let mnp := signed.2
    if signed.1 = false then
      (false, "Failed to sign ping, vin: " ++ env.CTxIn_ToString vin,
        env.CMasternodeBroadcast_empty)
    else
      let mnb := CMasternodeBroadcast.ofParts env service vin pubKeyCollateralAddress
        pubKeyMasternode env.PROTOCOL_VERSION
      let mnb := { mnb with lastPing := mnp }
      let signedMnb := CMasternodeBroadcast.Sign env mnb keyCollateralAddress
      let mnb := signedMnb.2
      if signedMnb.1 = false then
        (false, "Failed to sign broadcast, vin: " ++ env.CTxIn_ToString vin,
          env.CMasternodeBroadcast_empty)
      else
        (true, errorMessage, mnb)

/-- The string-argument `CActiveMasternode::CreateBroadcast`
(activemasternode.cpp lines 199-243): the return value, the values left in the
reference arguments `errorMessage` and `mnb`, and the calls made to the
network. -/
def CreateBroadcast_str (env : Env) (strService strKeyMasternode strTxHash strOutputIndex : String)
    (errorMessage : String) (mnb : CMasternodeBroadcast) (fOffline : Bool)
    (net : List NetEvent) : Bool × String × CMasternodeBroadcast × List NetEvent :=
  if (!fOffline && !env.IsBlockchainSynced) = true then
    (false, "Sync in progress. Must wait until sync is complete to start Masternode", mnb, net)
  else
    let keys := env.SetKey strKeyMasternode errorMessage
    let errorMessage := keys.2.1
    let keyMasternode := keys.2.2.1
    let pubKeyMasternode := keys.2.2.2
    if keys.1 = false then
      (false, "Can't find keys for masternode " ++ strService ++ " - " ++ errorMessage, mnb, net)
    else
      let coins := env.GetMasternodeVinAndKeysAt strTxHash strOutputIndex
      let vin := coins.2.1
      let pubKeyCollateralAddress := coins.2.2.1
      let keyCollateralAddress := coins.2.2.2
      if coins.1 = false then
        (false, "Could not allocate vin " ++ strTxHash ++ ":" ++ strOutputIndex
          ++ " for masternode " ++ strService, mnb, net)
      else
        let service := env.CService_ofString strService
        let mainnetDefaultPort := env.mainnetDefaultPort
        if env.NetworkIDString = CBaseChainParams.MAIN then
          if (service.port : Int) ≠ mainnetDefaultPort then
            (false, "Invalid port " ++ toString service.port ++ " for masternode " ++ strService
              ++ " - only " ++ toString mainnetDefaultPort ++ " is supported on mainnet.", mnb, net)
          else
            let net := net ++ [NetEvent.AddrmanAdd service]
            let r := CreateBroadcast env vin (env.CService_ofString strService)
              keyCollateralAddress pubKeyCollateralAddress keyMasternode pubKeyMasternode
              errorMessage mnb
            (r.1, r.2.1, r.2.2, net)
        else if (service.port : Int) = mainnetDefaultPort then
          (false, "Invalid port " ++ toString service.port ++ " for masternode " ++ strService
            ++ " - " ++ toString mainnetDefaultPort ++ " is only supported on mainnet.", mnb, net)
        else
          let net := net ++ [NetEvent.AddrmanAdd service]
          let r := CreateBroadcast env vin (env.CService_ofString strService)
            keyCollateralAddress pubKeyCollateralAddress keyMasternode pubKeyMasternode
            errorMessage mnb
          (r.1, r.2.1, r.2.2, net)

/-- Lines 31-41 of `CActiveMasternode::ManageStatus`: a status of
`SYNC_IN_PROCESS` becomes `INITIAL`, and in `INITIAL` the registry is asked for
an entry with this node's operational key; the entry is re-checked and, when it
is enabled or pre-enabled with the current protocol version,
`EnableHotColdMasterNode` is called with its `vin` and `addr`. -/
def ManageStatus_initial (env : Env) (s : State) : State :=
  let s := if s.status = ACTIVE_MASTERNODE_SYNC_IN_PROCESS then
      { s with status := ACTIVE_MASTERNODE_INITIAL } else s
  if s.status = ACTIVE_MASTERNODE_INITIAL then
    match s.mnodeman.Find_pubKeyMasternode s.pubKeyMasternode with
    | some (i, pmn) =>
      let pmn := env.Check pmn
      let s := { s with mnodeman := s.mnodeman.setEntry i pmn }
      if ((env.IsEnabled pmn || env.IsPreEnabled pmn)
          && decide (pmn.protocolVersion = env.PROTOCOL_VERSION)) = true then
        (EnableHotColdMasterNode env pmn.vin pmn.addr s).2
      else s
    | none => s
  else s

/-- Lines 84-132 of `CActiveMasternode::ManageStatus`: what follows the port
check inside `if(status != ACTIVE_MASTERNODE_STARTED)`: the connectivity probe,
the selection of the collateral, its confirmation depth, the lock, the
broadcast. -/
def ManageStatus_afterPort (env : Env) (errorMessage : String) (s : State) : State :=
  let s := { s with net := s.net ++ [NetEvent.ConnectNode s.service] }
  if env.ConnectNode s.service = false then
    { s with notCapableReason := "Could not connect to " ++ env.CService_ToString s.service }
  else
    let coins := env.GetMasternodeVinAndKeys s.vin
    let s := { s with vin := coins.2.1 }
    let pubKeyCollateralAddress := coins.2.2.1
    let keyCollateralAddress := coins.2.2.2
    if coins.1 = true then
      if env.GetInputAge s.vin < env.nMasternodeMinimumConfirmations then
        let s := { s with status := ACTIVE_MASTERNODE_INPUT_TOO_NEW }
        { s with notCapableReason :=
            GetStatus env s ++ " - " ++ toString (env.GetInputAge s.vin) ++ " confirmations" }
      else
        let s := { s with setLockedCoins := LockCoin s.setLockedCoins s.vin.prevout }
        let r := CreateBroadcast env s.vin s.service keyCollateralAddress
          pubKeyCollateralAddress s.keyMasternode s.pubKeyMasternode errorMessage
          env.CMasternodeBroadcast_empty
        let errorMessage := r.2.1
        let mnb := r.2.2
        if r.1 = false then
          { s with notCapableReason := "Error on CreateBroadcast: " ++ errorMessage }
        else
          let s := { s with mnodeman := env.UpdateMasternodeList s.mnodeman mnb }
          let s := { s with net := s.net ++ [NetEvent.RelayBroadcast mnb] }
          { s with status := ACTIVE_MASTERNODE_STARTED }
    else
      { s with notCapableReason := "Could not find suitable coins!" }

/-- Lines 45-82 of `CActiveMasternode::ManageStatus`: the body of
`if(status != ACTIVE_MASTERNODE_STARTED)` up to and including the port check;
every path returns, the one on which the port passes through
`ManageStatus_afterPort`. -/
def ManageStatus_notStarted (env : Env) (errorMessage : String) (s : State) : State :=
  let s := { s with status := ACTIVE_MASTERNODE_NOT_CAPABLE, notCapableReason := "" }
  if env.IsLocked = true then
    { s with notCapableReason := "Wallet is locked." }
  else if env.GetBalance = 0 then
    { s with notCapableReason := "Hot node, waiting for remote activation." }
  else
    let addrOk : Bool × State :=
      if env.strMasterNodeAddr.isEmpty = true then
        let r := env.GetLocal s.service
        (r.1, { s with service := r.2 })
      else
        (true, { s with service := env.CService_ofString env.strMasterNodeAddr })
    let s := addrOk.2
    if addrOk.1 = false then
      { s with notCapableReason :=
          "Can't detect external address. Please use the masternodeaddr configuration option." }
    else
      let mainnetDefaultPort := env.mainnetDefaultPort
      if env.NetworkIDString = CBaseChainParams.MAIN then
        if (s.service.port : Int) ≠ mainnetDefaultPort then
          { s with notCapableReason :=
              "Invalid port: " ++ toString s.service.port ++ " - only "
                ++ toString mainnetDefaultPort ++ " is supported on mainnet." }
        else ManageStatus_afterPort env errorMessage s
      else if (s.service.port : Int) = mainnetDefaultPort then
        { s with notCapableReason :=
            "Invalid port: " ++ toString s.service.port ++ " - "
              ++ toString mainnetDefaultPort ++ " is only supported on mainnet." }
      else ManageStatus_afterPort env errorMessage s

/-- `CActiveMasternode::ManageStatus` (activemasternode.cpp lines 16-139): one
tick of the state machine. -/
def ManageStatus (env : Env) (s : State) : State :=
  let errorMessage : String := ""
  if env.fMasterNode = false then s
  else if env.NetworkIDString ≠ CBaseChainParams.REGTEST ∧ env.IsBlockchainSynced = false then
    { s with status := ACTIVE_MASTERNODE_SYNC_IN_PROCESS }
  else
    let s := ManageStatus_initial env s
    if s.status ≠ ACTIVE_MASTERNODE_STARTED then
      ManageStatus_notStarted env errorMessage s
    else
      (SendMasternodePing env errorMessage s).2.2

/-- State after each tick of a run of `ManageStatus`, one set of collaborator
answers per tick. -/
def runTicks (s : State) : List Env → List State
  | [] => []
  | env :: rest => ManageStatus env s :: runTicks (ManageStatus env s) rest

/-! ## Vocabulary of the specification -/

/-- The status with which a tick leaves line 31: `SYNC_IN_PROCESS` has become
`INITIAL`. -/
def statusAfterSync (s : State) : ActiveStatus :=
  if s.status = ACTIVE_MASTERNODE_SYNC_IN_PROCESS then ACTIVE_MASTERNODE_INITIAL else s.status

/-- The registry entry for this node's operational key after its status has
been re-checked (lines 35-37), with its position. -/
def ownEntry (env : Env) (s : State) : Option (Nat × CMasternode) :=
  match s.mnodeman.Find_pubKeyMasternode s.pubKeyMasternode with
  | some (i, pmn) => some (i, env.Check pmn)
  | none => none

/-- The condition of line 38 on a re-checked entry: enabled or pre-enabled, and
of the current protocol version. -/
def activatable (env : Env) (pmn : CMasternode) : Bool :=
  (env.IsEnabled pmn || env.IsPreEnabled pmn) && decide (pmn.protocolVersion = env.PROTOCOL_VERSION)

/-- The tick takes the registry shortcut: it is past line 31 with status
`INITIAL`, the lookup finds an entry, and the re-checked entry is
activatable. -/
def shortcutTaken (env : Env) (s : State) : Bool :=
  decide (statusAfterSync s = ACTIVE_MASTERNODE_INITIAL) &&
    match ownEntry env s with
    | some (_, pmn) => activatable env pmn
    | none => false

/-- The registry as lines 33-41 leave it: in `INITIAL` the entry found for this
node is replaced by its re-checked version, otherwise nothing changes. -/
def mnodemanChecked (env : Env) (s : State) : CMasternodeMan :=
  if statusAfterSync s = ACTIVE_MASTERNODE_INITIAL then
    match ownEntry env s with
    | some (i, pmn) => s.mnodeman.setEntry i pmn
    | none => s.mnodeman
  else s.mnodeman

/-- The tick passes the sync gate of lines 25-29. -/
def pastSyncGate (env : Env) : Prop :=
  env.NetworkIDString = CBaseChainParams.REGTEST ∨ env.IsBlockchainSynced = true

/-- An external address is available (lines 61-69): one is configured, or
`GetLocal` detects one. -/
def addressAvailable (env : Env) (s : State) : Prop :=
  env.strMasterNodeAddr.isEmpty = true → (env.GetLocal s.service).1 = true

/-- The endpoint the capability checks work on (lines 61-69): the configured
address, or the one `GetLocal` leaves in `service`. -/
def tickService (env : Env) (s : State) : CService :=
  if env.strMasterNodeAddr.isEmpty = true then (env.GetLocal s.service).2
  else env.CService_ofString env.strMasterNodeAddr

/-- The port rule in the words of the specification: on the main network only
the main network's default port is accepted, on any other network that very
port is refused. -/
def portRuleViolated (networkID : String) (port : Nat) (mainnetDefaultPort : Int) : Prop :=
  (networkID = CBaseChainParams.MAIN ∧ (port : Int) ≠ mainnetDefaultPort)
  ∨ (networkID ≠ CBaseChainParams.MAIN ∧ (port : Int) = mainnetDefaultPort)

instance (networkID : String) (port : Nat) (mainnetDefaultPort : Int) :
    Decidable (portRuleViolated networkID port mainnetDefaultPort) := by
  unfold portRuleViolated
  infer_instance

/-- A string starts with another. -/
def startsWith (s pre : String) : Prop := ∃ rest : String, s = pre ++ rest

/-- A string occurs inside another. -/
def containsText (s part : String) : Prop := ∃ before after : String, s = before ++ part ++ after

/-- The ping `SendMasternodePing` builds for the node's collateral input and
signs with the operational key (lines 160-161), as `Sign` leaves it. -/
def newPing (env : Env) (s : State) : CMasternodePing :=
  (CMasternodePing.Sign env (CMasternodePing.ofVin env s.vin) s.keyMasternode s.pubKeyMasternode).2

/-- Signing that ping succeeds (line 161). -/
def pingSigned (env : Env) (s : State) : Bool :=
  (CMasternodePing.Sign env (CMasternodePing.ofVin env s.vin) s.keyMasternode s.pubKeyMasternode).1

/-- The collaborators of `env` with every answer the capability checks of lines
43-133 ask for taken from `other` instead: wallet lock, balance, configured and
detected address, default port, connectivity probe, collateral selection and
its confirmation depth, and what broadcast construction and registry update
need. -/
def withCapabilityAnswers (env other : Env) : Env :=
  { env with
    IsLocked := other.IsLocked
    GetBalance := other.GetBalance
    strMasterNodeAddr := other.strMasterNodeAddr
    GetLocal := other.GetLocal
    CService_ofString := other.CService_ofString
    mainnetDefaultPort := other.mainnetDefaultPort
    ConnectNode := other.ConnectNode
    GetMasternodeVinAndKeys := other.GetMasternodeVinAndKeys
    GetInputAge := other.GetInputAge
    nMasternodeMinimumConfirmations := other.nMasternodeMinimumConfirmations
    fImporting := other.fImporting
    fReindex := other.fReindex
    SignBroadcast := other.SignBroadcast
    UpdateMasternodeList := other.UpdateMasternodeList }

/-- The collateral input the wallet selects in a tick (line 96): the value
`GetMasternodeVinAndKeys` leaves in `vin`. -/
def selectedVin (env : Env) (s : State) : CTxIn := (env.GetMasternodeVinAndKeys s.vin).2.1

/-- The broadcast construction of a tick (line 110): the key-argument
`CreateBroadcast` on the selected collateral, the tick's endpoint, the
collateral key pair and the node's operational key pair, with the tick's still
empty error message. -/
def tickBroadcast (env : Env) (s : State) : Bool × String × CMasternodeBroadcast :=
  CreateBroadcast env (selectedVin env s) (tickService env s)
    (env.GetMasternodeVinAndKeys s.vin).2.2.2 (env.GetMasternodeVinAndKeys s.vin).2.2.1
    s.keyMasternode s.pubKeyMasternode "" env.CMasternodeBroadcast_empty

/-- The checks of a tick that come before the selection of the collateral, in
the words of the specification: wallet unlocked, balance non-zero, external
address available, port rule satisfied, connectivity probe succeeds. -/
def checksBeforeCollateralPass (env : Env) (s : State) : Prop :=
  env.IsLocked = false
  ∧ env.GetBalance ≠ 0
  ∧ addressAvailable env s
  ∧ ¬ portRuleViolated env.NetworkIDString (tickService env s).port env.mainnetDefaultPort
  ∧ env.ConnectNode (tickService env s) = true

/-- All capability checks of a tick pass, in the words of the specification:
the checks before the collateral, a collateral output is selected, its
confirmation count is at least the consensus minimum, and broadcast
construction succeeds. -/
def allChecksPass (env : Env) (s : State) : Prop :=
  checksBeforeCollateralPass env s
  ∧ (env.GetMasternodeVinAndKeys s.vin).1 = true
  ∧ env.nMasternodeMinimumConfirmations ≤ env.GetInputAge (selectedVin env s)
  ∧ (tickBroadcast env s).1 = true

/-- The state with which a tick whose earlier checks pass reaches the
connectivity probe of line 84: defaults set (lines 46-47), endpoint stored,
registry as lines 33-41 left it. -/
def stateAtProbe (env : Env) (s : State) : State :=
  { s with
    status := ACTIVE_MASTERNODE_NOT_CAPABLE
    notCapableReason := ""
    service := tickService env s
    mnodeman := mnodemanChecked env s }

/-- The ping the key-argument `CreateBroadcast` builds for a collateral input
and signs with the operational key pair (lines 249-250): the return value of
`Sign` and the ping as `Sign` leaves it. -/
def signedPingFor (env : Env) (vin : CTxIn) (keyMasternode : CKey)
    (pubKeyMasternode : CPubKey) : Bool × CMasternodePing :=
  CMasternodePing.Sign env (CMasternodePing.ofVin env vin) keyMasternode pubKeyMasternode

/-- The broadcast the key-argument `CreateBroadcast` hands to the signer (lines
257-258): built from the arguments and the current protocol version, with the
signed ping already embedded. -/
def broadcastToSign (env : Env) (vin : CTxIn) (service : CService)
    (pubKeyCollateralAddress : CPubKey) (keyMasternode : CKey) (pubKeyMasternode : CPubKey) :
    CMasternodeBroadcast :=
  { CMasternodeBroadcast.ofParts env service vin pubKeyCollateralAddress pubKeyMasternode
      env.PROTOCOL_VERSION with
    lastPing := (signedPingFor env vin keyMasternode pubKeyMasternode).2 }

/-- Lookup in a `std::map`: the value stored under `k`, if any. -/
def mapFind {K V : Type} [DecidableEq K] (m : List (K × V)) (k : K) : Option V :=
  (m.find? (fun kv => decide (kv.1 = k))).map Prod.snd

/-- The keys of a `std::map`, in the order of the list. -/
def mapKeys {K V : Type} (m : List (K × V)) : List K := m.map Prod.fst

/-- Lines 31-139 of `CActiveMasternode::ManageStatus`: what a tick does once it
is past the sync gate of lines 25-29: lines 31-41, then the capability
evaluation when the status is not `STARTED`, otherwise the ping. -/
def ManageStatus_pastGate (env : Env) (s : State) : State :=
  let errorMessage : String := ""
  let s := ManageStatus_initial env s
  if s.status ≠ ACTIVE_MASTERNODE_STARTED then
    ManageStatus_notStarted env errorMessage s
  else
    (SendMasternodePing env errorMessage s).2.2

/-! ## Concrete inputs -/

/-- A collateral input. -/
def vinA : CTxIn := { prevout := { hash := 1, n := 0 }, scriptSig := [], nSequence := 0 }

/-- Collaborators of a funded, synced main-network node configured with the
default port; every check of a tick passes. -/
def envMain : Env :=
  { fMasterNode := true
    strMasterNodeAddr := "203.0.113.5:62583"
    fImporting := false
    fReindex := false
    NetworkIDString := "main"
    mainnetDefaultPort := 62583
    nMasternodeMinimumConfirmations := 15
    PROTOCOL_VERSION := 70208
    MASTERNODE_PING_SECONDS := 300
    IsBlockchainSynced := true
    IsLocked := false
    GetBalance := 1000
    GetMasternodeVinAndKeys := fun _ => (true, vinA, [2], [3])
    GetMasternodeVinAndKeysAt := fun _ _ => (true, vinA, [2], [3])
    GetLocal := fun svc => (false, svc)
    CService_ofString := fun str =>
      if str = "203.0.113.5:62583" then { ip := "203.0.113.5", port := 62583 }
      else { ip := str, port := 9999 }
    ConnectNode := fun _ => true
    GetInputAge := fun _ => 20
    GetAdjustedTime := 1000
    pingBlockHash := 5
    SignPing := fun _ _ _ => (true, 1000, [9])
    SignBroadcast := fun _ _ => (true, 1000, [8])
    SetKey := fun _ e => (true, e, [4], [5])
    CMasternodeBroadcast_empty := default
    Check := fun mn => mn
    IsEnabled := fun mn => decide (mn.nActiveState = 1)
    IsPreEnabled := fun mn => decide (mn.nActiveState = 0)
    IsPingedWithin := fun mn seconds now => decide (now - mn.lastPing.sigTime < seconds)
    UpdateMasternodeList := fun m mnb =>
      { m with mapSeenMasternodeBroadcast := mapInsert m.mapSeenMasternodeBroadcast 1 mnb }
    GetHash_mnb := fun mnb => mnb.vin.prevout.hash
    GetHash_mnp := fun mnp => mnp.sigTime.toNat
    CService_ToString := fun svc => svc.ip
    CTxIn_ToString := fun vin => toString vin.prevout.hash }

/-- The same node configured with a port other than the default one. -/
def envMainBadPort : Env := { envMain with strMasterNodeAddr := "203.0.113.5:9999" }

/-- A freshly constructed active node: status `INITIAL`, empty registry. -/
def stFresh : State := { (default : State) with pubKeyMasternode := [5], keyMasternode := [4] }


/-- A registry with two queued governance hashes and one seen ping. -/
def manQueued : CMasternodeMan :=
  { (default : CMasternodeMan) with
    vecDirtyGovernanceObjectHashes := [7, 7]
    nDsqCount := 4
    mapSeenMasternodePing := [(11, default)] }

/-- A snapshot written by another format version, with one entry. -/
def snapOld : CMasternodeMan.Snapshot :=
  { (default : CMasternodeMan.Snapshot) with
    strVersion := "CMasternodeMan-Version-0"
    vMasternodes := [default]
    nDsqCount := 9 }

/-- A snapshot of the current format version, with one entry. -/
def snapCurrent : CMasternodeMan.Snapshot :=
  { snapOld with strVersion := "CMasternodeMan-Version-1" }

/-- Collaborators as in `envMain`, with a signer that fails on pings. -/
def envSignFails : Env := { envMain with SignPing := fun _ _ _ => (false, 1000, []) }

/-- A registry entry for `vinA` whose last ping was signed at time 900. -/
def mnA : CMasternode :=
  { (default : CMasternode) with
    vin := vinA
    pubKeyMasternode := [5]
    nActiveState := 1
    protocolVersion := 70208
    lastPing := { vin := vinA, blockHash := 5, sigTime := 900, vchSig := [9] } }

/-- The same entry with a last ping signed at time 100. -/
def mnAOld : CMasternode :=
  { mnA with lastPing := { vin := vinA, blockHash := 5, sigTime := 100, vchSig := [9] } }

/-- A started node for `vinA` whose registry lists it, pinged at time 900. -/
def stStarted : State :=
  { stFresh with
    status := ACTIVE_MASTERNODE_STARTED
    vin := vinA
    mnodeman := { (default : CMasternodeMan) with vMasternodes := [mnA] } }

/-- A started node for `vinA` whose registry lists it, pinged at time 100. -/
def stStartedOld : State :=
  { stStarted with mnodeman := { (default : CMasternodeMan) with vMasternodes := [mnAOld] } }

/-- A started node for `vinA` whose registry does not list it. -/
def stStartedUnlisted : State :=
  { stFresh with status := ACTIVE_MASTERNODE_STARTED, vin := vinA }

/-- Collaborators as in `envMain`, with an empty wallet. -/
def envZeroBalance : Env := { envMain with GetBalance := 0 }

/-- A freshly constructed node whose registry already lists an enabled entry
with its operational key (activated from a remote wallet). -/
def stListed : State :=
  { stFresh with mnodeman := { (default : CMasternodeMan) with vMasternodes := [mnA] } }

/-- Collaborators of a main-network node whose chain is not synced yet, with a
locked and empty wallet. -/
def envUnsynced : Env :=
  { envMain with IsBlockchainSynced := false, IsLocked := true, GetBalance := 0 }

/-- Collaborators of a node on the regression-test network whose sync status
reports false. -/
def envRegtest : Env :=
  { envMain with
    NetworkIDString := "regtest"
    IsBlockchainSynced := false
    strMasterNodeAddr := "203.0.113.5:19999" }

/-- A node left in `SYNC_IN_PROCESS` by an earlier tick. -/
def stSyncing : State := { stFresh with status := ACTIVE_MASTERNODE_SYNC_IN_PROCESS }

/-- Collaborators as in `envMain`, with a locked wallet. -/
def envLocked : Env := { envMain with IsLocked := true }

/-- Collaborators as in `envMain`, with a collateral of 3 confirmations. -/
def envTooNew : Env := { envMain with GetInputAge := fun _ => 3 }

/-- Collaborators of a node that is not configured as a masternode. -/
def envNotMasternode : Env := { envMain with fMasterNode := false }

/-- Collaborators as in `envMain` while the node is reindexing. -/
def envReindex : Env := { envMain with fReindex := true }

/-- An endpoint on the default port. -/
def serviceA : CService := { ip := "203.0.113.5", port := 62583 }

/-- Collaborators as in `envMain`, with a signer that fails on broadcasts. -/
def envBroadcastSignFails : Env := { envMain with SignBroadcast := fun _ _ => (false, 1000, []) }

/-- Collaborators as in `envMain`, with a failing connectivity probe. -/
def envUnreachable : Env := { envMain with ConnectNode := fun _ => false }

/-- A node that an earlier tick left `NOT_CAPABLE` after its registry entry
disappeared; the registry lists it again as enabled. -/
def stDemotedListed : State :=
  { stListed with
    status := ACTIVE_MASTERNODE_NOT_CAPABLE
    notCapableReason := "PrivateSend Masternode List doesn't include our Masternode, shutting down Masternode pinging service! 1"
    vin := vinA }

/-- A started node for `vinA`, last pinged at time 100, whose caches already
hold its own broadcast under hash 1, another broadcast under hash 2, and some
ping under hash 1000, the hash the new ping will have. -/
def stStartedSeen : State :=
  { stStarted with
    mnodeman :=
      { (default : CMasternodeMan) with
        vMasternodes := [mnAOld]
        mapSeenMasternodeBroadcast := [(1, CMasternodeBroadcast.ofMasternode mnAOld), (2, default)]
        mapSeenMasternodePing := [(1000, default)] } }

/-! ## Theorems -/

/-! ### Registry bookkeeping (masternodeman.h) -/

theorem foldl_AddDirtyGovernanceObjectHash (hs : List uint256) (m : CMasternodeMan) :
    hs.foldl CMasternodeMan.AddDirtyGovernanceObjectHash m =
      { m with vecDirtyGovernanceObjectHashes := m.vecDirtyGovernanceObjectHashes ++ hs } := by
  induction hs generalizing m with
  | nil => simp
  | cons h t ih =>
    simp [List.foldl, ih, CMasternodeMan.AddDirtyGovernanceObjectHash]

/-- C9: after any sequence of `AddDirtyGovernanceObjectHash` calls on any
registry, `GetAndClearDirtyGovernanceObjectHashes` returns the hashes that were
queued before followed by the added ones in insertion order (duplicates kept),
leaves the queue empty and every other field of the registry as it was, and a
second drain right after returns the empty list. -/
theorem C9_drain_returns_queue_in_order (m : CMasternodeMan) (hs : List uint256) :
    (CMasternodeMan.GetAndClearDirtyGovernanceObjectHashes
        (hs.foldl CMasternodeMan.AddDirtyGovernanceObjectHash m)).1
      = m.vecDirtyGovernanceObjectHashes ++ hs
    ∧ (CMasternodeMan.GetAndClearDirtyGovernanceObjectHashes
        (hs.foldl CMasternodeMan.AddDirtyGovernanceObjectHash m)).2
      = { m with vecDirtyGovernanceObjectHashes := [] }
    ∧ (CMasternodeMan.GetAndClearDirtyGovernanceObjectHashes
        (CMasternodeMan.GetAndClearDirtyGovernanceObjectHashes
          (hs.foldl CMasternodeMan.AddDirtyGovernanceObjectHash m)).2).1 = [] := by
  simp [foldl_AddDirtyGovernanceObjectHash,
    CMasternodeMan.GetAndClearDirtyGovernanceObjectHashes]

/-- C10: loading a snapshot whose version tag differs from
`SERIALIZATION_VERSION_STRING` leaves the registry in the `Clear()` state, with
no entries and empty bookkeeping maps and caches, whatever follows the tag;
loading one whose tag is equal stores exactly the values read (entry list, the
three ask-timestamp maps, watchdog time, dsq count, both seen-message caches),
with no reset, and leaves the members that are not persisted alone; writing
always emits `SERIALIZATION_VERSION_STRING` as the tag, followed by the
members. -/
theorem C10_version_tag_decides_reset (V : String) (snap : CMasternodeMan.Snapshot)
    (m : CMasternodeMan) :
    (snap.strVersion ≠ V →
      CMasternodeMan.SerializationOp_read V snap m = CMasternodeMan.Clear m
      ∧ (CMasternodeMan.SerializationOp_read V snap m).vMasternodes = []
      ∧ (CMasternodeMan.SerializationOp_read V snap m).mAskedUsForMasternodeList = []
      ∧ (CMasternodeMan.SerializationOp_read V snap m).mWeAskedForMasternodeList = []
      ∧ (CMasternodeMan.SerializationOp_read V snap m).mWeAskedForMasternodeListEntry = []
      ∧ (CMasternodeMan.SerializationOp_read V snap m).mapSeenMasternodeBroadcast = []
      ∧ (CMasternodeMan.SerializationOp_read V snap m).mapSeenMasternodePing = [])
    ∧ (snap.strVersion = V →
      CMasternodeMan.SerializationOp_read V snap m =
        { vMasternodes := snap.vMasternodes
          mAskedUsForMasternodeList := snap.mAskedUsForMasternodeList
          mWeAskedForMasternodeList := snap.mWeAskedForMasternodeList
          mWeAskedForMasternodeListEntry := snap.mWeAskedForMasternodeListEntry
          vecDirtyGovernanceObjectHashes := m.vecDirtyGovernanceObjectHashes
          nLastWatchdogVoteTime := snap.nLastWatchdogVoteTime
          mapSeenMasternodeBroadcast := snap.mapSeenMasternodeBroadcast
          mapSeenMasternodePing := snap.mapSeenMasternodePing
          nDsqCount := snap.nDsqCount
          dummyScriptPubkey := m.dummyScriptPubkey })
    ∧ CMasternodeMan.SerializationOp_write V m =
        { strVersion := V
          vMasternodes := m.vMasternodes
          mAskedUsForMasternodeList := m.mAskedUsForMasternodeList
          mWeAskedForMasternodeList := m.mWeAskedForMasternodeList
          mWeAskedForMasternodeListEntry := m.mWeAskedForMasternodeListEntry
          nLastWatchdogVoteTime := m.nLastWatchdogVoteTime
          nDsqCount := m.nDsqCount
          mapSeenMasternodeBroadcast := m.mapSeenMasternodeBroadcast
          mapSeenMasternodePing := m.mapSeenMasternodePing } := by
  refine ⟨?_, ?_, ?_⟩
  · intro h
    simp [CMasternodeMan.SerializationOp_read, CMasternodeMan.Clear, h]
  · intro h
    simp [CMasternodeMan.SerializationOp_read, h]
  · simp [CMasternodeMan.SerializationOp_write]

/-- C10 at concrete snapshots: an entry stored under an older tag is dropped,
the same entry under the current tag is loaded. -/
theorem C10_version_tag_decides_reset_witness :
    (CMasternodeMan.SerializationOp_read "CMasternodeMan-Version-1" snapOld manQueued).vMasternodes
        = []
    ∧ (CMasternodeMan.SerializationOp_read "CMasternodeMan-Version-1" snapCurrent
        manQueued).vMasternodes = [default] := by
  have h := C10_version_tag_decides_reset "CMasternodeMan-Version-1" snapOld manQueued
  have h2 := C10_version_tag_decides_reset "CMasternodeMan-Version-1" snapCurrent manQueued
  refine ⟨(h.1 (by decide)).2.1, ?_⟩
  rw [h2.2.1 (by decide)]
  rfl

/-! ### Strings -/

theorem ne_invalid_port_of_head (a x rest : String) (h : a.data.head? ≠ some 'I')
    (hne : a.data ≠ []) : a ++ x ≠ "Invalid port" ++ rest := by
  intro heq
  have hd := congrArg String.data heq
  simp only [String.data_append] at hd
  cases ha : a.data with
  | nil => exact hne ha
  | cons c cs =>
    rw [ha] at hd h
    simp at hd h
    exact h hd.1

/-! ### The stages of a tick -/

theorem ManageStatus_initial_of_no_shortcut (env : Env) (s : State)
    (hsc : shortcutTaken env s = false) :
    ManageStatus_initial env s =
      { s with status := statusAfterSync s, mnodeman := mnodemanChecked env s } := by
  rcases s with ⟨st, r, v, sv, pk, k, man, lc, net⟩
  unfold ManageStatus_initial shortcutTaken mnodemanChecked ownEntry statusAfterSync at *
  simp only at hsc ⊢
  cases hf : man.Find_pubKeyMasternode pk with
  | none => cases st <;> simp [hf]
  | some ip =>
    obtain ⟨i, pmn⟩ := ip
    cases st <;> simp [hf, activatable] at hsc ⊢ <;>
      exact fun h1 h2 => absurd h2 (hsc h1)

theorem ManageStatus_initial_of_shortcut (env : Env) (s : State)
    (hm : env.fMasterNode = true) (hsc : shortcutTaken env s = true) :
    ∃ i pmn, ownEntry env s = some (i, pmn) ∧ activatable env pmn = true ∧
      ManageStatus_initial env s =
        { s with status := ACTIVE_MASTERNODE_STARTED, vin := pmn.vin, service := pmn.addr,
                 mnodeman := s.mnodeman.setEntry i pmn } := by
  rcases s with ⟨st, r, v, sv, pk, k, man, lc, net⟩
  unfold ManageStatus_initial shortcutTaken ownEntry statusAfterSync at *
  simp only at hsc ⊢
  cases hf : man.Find_pubKeyMasternode pk with
  | none => simp [hf] at hsc
  | some ip =>
    obtain ⟨i, pmn⟩ := ip
    refine ⟨i, env.Check pmn, rfl, ?_, ?_⟩
    · simp [hf] at hsc
      exact hsc.2
    · cases st <;> simp [hf, activatable, EnableHotColdMasterNode, hm] at hsc ⊢ <;>
        exact hsc

theorem ManageStatus_afterPort_not_invalid_port (env : Env) (e : String) (s : State)
    (h : (ManageStatus_afterPort env e s).status = ACTIVE_MASTERNODE_NOT_CAPABLE) :
    ¬ startsWith (ManageStatus_afterPort env e s).notCapableReason "Invalid port" := by
  unfold ManageStatus_afterPort at h ⊢
  rintro ⟨rest, hrest⟩
  simp only at h hrest
  have hcoins : "Could not find suitable coins!" ≠ "Invalid port" ++ rest := by
    have := ne_invalid_port_of_head "Could not find suitable coins!" "" rest
      (by decide) (by decide)
    simpa using this
  split_ifs at h hrest <;> simp only at hrest <;>
    first
    | exact absurd hrest (ne_invalid_port_of_head _ _ _ (by decide) (by decide))
    | exact absurd hrest hcoins

theorem ManageStatus_of_no_shortcut (env : Env) (s : State)
    (hm : env.fMasterNode = true) (hg : pastSyncGate env)
    (hs : s.status ≠ ACTIVE_MASTERNODE_STARTED) (hsc : shortcutTaken env s = false) :
    ManageStatus env s =
      ManageStatus_notStarted env ""
        { s with status := statusAfterSync s, mnodeman := mnodemanChecked env s } := by
  have hgate : ¬ (env.NetworkIDString ≠ CBaseChainParams.REGTEST ∧ env.IsBlockchainSynced = false) := by
    rcases hg with h | h
    · simp [h]
    · simp [h]
  have hst : statusAfterSync s ≠ ACTIVE_MASTERNODE_STARTED := by
    unfold statusAfterSync
    split_ifs
    · decide
    · exact hs
  unfold ManageStatus
  simp only [hm, hgate, if_false, Bool.true_eq_false]
  rw [ManageStatus_initial_of_no_shortcut env s hsc]
  simp [hst]

theorem ManageStatus_notStarted_port (env : Env) (e : String) (s : State)
    (hl : env.IsLocked = false) (hb : env.GetBalance ≠ 0) (ha : addressAvailable env s) :
    ((ManageStatus_notStarted env e s).status = ACTIVE_MASTERNODE_NOT_CAPABLE
        ∧ startsWith (ManageStatus_notStarted env e s).notCapableReason "Invalid port")
      ↔ portRuleViolated env.NetworkIDString (tickService env s).port env.mainnetDefaultPort := by
  unfold addressAvailable at ha
  unfold ManageStatus_notStarted portRuleViolated tickService
  simp only [hl, hb, if_false, Bool.false_eq_true]
  by_cases hE : env.strMasterNodeAddr.isEmpty = true
  · simp only [hE, if_true, ha hE, Bool.true_eq_false, if_false]
    by_cases hN : env.NetworkIDString = CBaseChainParams.MAIN
    · by_cases hP : ((env.GetLocal s.service).2.port : Int) = env.mainnetDefaultPort
      · simp only [hN, hP, if_true, ne_eq, not_true_eq_false, if_false, and_false, false_or,
          and_true, not_true_eq_false, false_and, iff_false, not_and]
        exact fun h => ManageStatus_afterPort_not_invalid_port _ _ _ h
      · simp only [hN, hP, if_true, ne_eq, not_false_eq_true, and_true, not_true_eq_false,
          false_and, or_false, iff_true, true_and]
        exact ⟨_, by simp [String.append_assoc]; rfl⟩
    · by_cases hP : ((env.GetLocal s.service).2.port : Int) = env.mainnetDefaultPort
      · simp only [hN, hP, if_true, if_false, ne_eq, not_true_eq_false, and_false, false_or,
          not_false_eq_true, and_true, or_true, iff_true, true_and, false_and]
        exact ⟨_, by simp [String.append_assoc]; rfl⟩
      · simp only [hN, hP, if_false, false_and, and_false, or_false, iff_false, not_and]
        exact fun h => ManageStatus_afterPort_not_invalid_port _ _ _ h
  · simp only [hE, if_false, Bool.true_eq_false, Bool.false_eq_true]
    by_cases hN : env.NetworkIDString = CBaseChainParams.MAIN
    · by_cases hP : ((env.CService_ofString env.strMasterNodeAddr).port : Int)
          = env.mainnetDefaultPort
      · simp only [hN, hP, if_true, ne_eq, not_true_eq_false, if_false, and_false, false_or,
          and_true, not_true_eq_false, false_and, iff_false, not_and]
        exact fun h => ManageStatus_afterPort_not_invalid_port _ _ _ h
      · simp only [hN, hP, if_true, ne_eq, not_false_eq_true, and_true, not_true_eq_false,
          false_and, or_false, iff_true, true_and]
        exact ⟨_, by simp [String.append_assoc]; rfl⟩
    · by_cases hP : ((env.CService_ofString env.strMasterNodeAddr).port : Int)
          = env.mainnetDefaultPort
      · simp only [hN, hP, if_true, if_false, ne_eq, not_true_eq_false, and_false, false_or,
          not_false_eq_true, and_true, or_true, iff_true, true_and, false_and]
        exact ⟨_, by simp [String.append_assoc]; rfl⟩
      · simp only [hN, hP, if_false, false_and, and_false, or_false, iff_false, not_and]
        exact fun h => ManageStatus_afterPort_not_invalid_port _ _ _ h

theorem append_singleton_ne_self {α : Type} (l : List α) (a : α) : l ++ [a] ≠ l := by
  intro h
  have := congrArg List.length h
  simp at this

/-- C1: the port rule at both call sites. In a `ManageStatus` tick that reaches
the port check (masternode enabled, past the sync gate, not started, registry
shortcut not taken, wallet unlocked, balance non-zero, external address
available) the tick ends `NOT_CAPABLE` with a reason starting with "Invalid
port" exactly when the network is the main network and the endpoint's port
differs from the main network's default port, or the network is another one
and the port equals it. In the string-argument `CreateBroadcast`, once the sync
check, the key lookup and the collateral lookup have passed, the call returns
false with an error message starting with "Invalid port", leaving `mnb` and the
network untouched (it never reaches `addrman.Add` and broadcast construction),
exactly under the same condition on the port of `CService(strService)`. -/
theorem C1_port_rule_at_both_call_sites (env : Env) (s : State)
    (strService strKeyMasternode strTxHash strOutputIndex errorMessage : String)
    (mnb : CMasternodeBroadcast) (fOffline : Bool) (net : List NetEvent) :
    (env.fMasterNode = true → pastSyncGate env →
      s.status ≠ ACTIVE_MASTERNODE_STARTED → shortcutTaken env s = false →
      env.IsLocked = false → env.GetBalance ≠ 0 → addressAvailable env s →
      (((ManageStatus env s).status = ACTIVE_MASTERNODE_NOT_CAPABLE
          ∧ startsWith (ManageStatus env s).notCapableReason "Invalid port")
        ↔ portRuleViolated env.NetworkIDString (tickService env s).port env.mainnetDefaultPort))
    ∧ ((fOffline = true ∨ env.IsBlockchainSynced = true) →
      (env.SetKey strKeyMasternode errorMessage).1 = true →
      (env.GetMasternodeVinAndKeysAt strTxHash strOutputIndex).1 = true →
      (((CreateBroadcast_str env strService strKeyMasternode strTxHash strOutputIndex
            errorMessage mnb fOffline net).1 = false
          ∧ startsWith (CreateBroadcast_str env strService strKeyMasternode strTxHash
              strOutputIndex errorMessage mnb fOffline net).2.1 "Invalid port"
          ∧ (CreateBroadcast_str env strService strKeyMasternode strTxHash strOutputIndex
              errorMessage mnb fOffline net).2.2.1 = mnb
          ∧ (CreateBroadcast_str env strService strKeyMasternode strTxHash strOutputIndex
              errorMessage mnb fOffline net).2.2.2 = net)
        ↔ portRuleViolated env.NetworkIDString (env.CService_ofString strService).port
            env.mainnetDefaultPort)) := by
  constructor
  · intro hm hg hs hsc hl hb ha
    rw [ManageStatus_of_no_shortcut env s hm hg hs hsc]
    exact ManageStatus_notStarted_port env "" _ hl hb ha
  · intro hsync hkey hcoins
    have hsync2 : (!fOffline && !env.IsBlockchainSynced) = false := by
      rcases hsync with h | h <;> simp [h]
    unfold CreateBroadcast_str portRuleViolated
    simp only [hsync2, hkey, hcoins, if_false, Bool.false_eq_true, Bool.true_eq_false]
    by_cases hN : env.NetworkIDString = CBaseChainParams.MAIN
    · by_cases hP : ((env.CService_ofString strService).port : Int) = env.mainnetDefaultPort
      · simp only [hN, hP, if_true, ne_eq, not_true_eq_false, if_false, and_false, false_or,
          and_true, false_and, iff_false, not_and]
        exact fun _ _ _ h => append_singleton_ne_self _ _ h
      · simp only [hN, hP, if_true, ne_eq, not_false_eq_true, and_true, not_true_eq_false,
          false_and, or_false, iff_true, true_and]
        exact ⟨_, by simp [String.append_assoc]; rfl⟩
    · by_cases hP : ((env.CService_ofString strService).port : Int) = env.mainnetDefaultPort
      · simp only [hN, hP, if_true, if_false, ne_eq, not_true_eq_false, and_false, false_or,
          not_false_eq_true, and_true, or_true, iff_true, true_and, false_and]
        exact ⟨_, by simp [String.append_assoc]; rfl⟩
      · simp only [hN, hP, if_false, false_and, and_false, or_false, iff_false, not_and]
        exact fun _ _ _ h => append_singleton_ne_self _ _ h

/-- C1 at a concrete input: a main-network node configured with port 9999 is
rejected by the tick and by the string-argument `CreateBroadcast`. -/
theorem C1_port_rule_at_both_call_sites_witness :
    ((ManageStatus envMainBadPort stFresh).status = ACTIVE_MASTERNODE_NOT_CAPABLE
      ∧ startsWith (ManageStatus envMainBadPort stFresh).notCapableReason "Invalid port")
    ∧ (CreateBroadcast_str envMainBadPort "203.0.113.5:9999" "key" "tx" "0" "" default
        false []).1 = false := by
  have h := C1_port_rule_at_both_call_sites envMainBadPort stFresh "203.0.113.5:9999" "key"
    "tx" "0" "" default false []
  exact ⟨(h.1 rfl (Or.inr rfl) (by decide) (by decide) rfl (by decide)
      (fun he => absurd he (by decide))).2 (by decide),
    ((h.2 (Or.inr rfl) rfl rfl).2 (by decide)).1⟩

/-! ### Registry lookup -/

theorem findEntry_some (p : CMasternode → Bool) (l : List CMasternode) (i : Nat)
    (x : CMasternode) (h : CMasternodeMan.findEntry p l = some (i, x)) :
    l[i]? = some x ∧ p x = true := by
  induction l generalizing i with
  | nil => simp [CMasternodeMan.findEntry] at h
  | cons a t ih =>
    unfold CMasternodeMan.findEntry at h
    by_cases ha : p a = true
    · simp [ha] at h
      obtain ⟨rfl, rfl⟩ := h
      simp [ha]
    · simp only [ha, if_false, Bool.false_eq_true] at h
      cases hf : CMasternodeMan.findEntry p t with
      | none => simp [hf] at h
      | some jx =>
        obtain ⟨j, y⟩ := jx
        simp [hf] at h
        obtain ⟨rfl, rfl⟩ := h
        simpa using ih j hf

theorem findEntry_set (p : CMasternode → Bool) (l : List CMasternode) (i : Nat)
    (x y : CMasternode) (h : CMasternodeMan.findEntry p l = some (i, x)) (hy : p y = true) :
    CMasternodeMan.findEntry p (l.set i y) = some (i, y) := by
  induction l generalizing i with
  | nil => simp [CMasternodeMan.findEntry] at h
  | cons a t ih =>
    unfold CMasternodeMan.findEntry at h
    by_cases ha : p a = true
    · simp [ha] at h
      obtain ⟨rfl, rfl⟩ := h
      simp [CMasternodeMan.findEntry, hy]
    · simp only [ha, if_false, Bool.false_eq_true] at h
      cases hf : CMasternodeMan.findEntry p t with
      | none => simp [hf] at h
      | some jx =>
        obtain ⟨j, z⟩ := jx
        simp [hf] at h
        obtain ⟨rfl, rfl⟩ := h
        simp [CMasternodeMan.findEntry, ha, ih j hf]

theorem findEntry_ne_none (p : CMasternode → Bool) (l : List CMasternode) (x : CMasternode)
    (hx : x ∈ l) (hp : p x = true) : CMasternodeMan.findEntry p l ≠ none := by
  induction l with
  | nil => simp at hx
  | cons a t ih =>
    unfold CMasternodeMan.findEntry
    by_cases ha : p a = true
    · simp [ha]
    · simp only [ha, if_false, Bool.false_eq_true]
      have hxt : x ∈ t := by
        rcases List.mem_cons.mp hx with h | h
        · exact absurd (h ▸ hp) ha
        · exact h
      cases hf : CMasternodeMan.findEntry p t with
      | none => exact absurd hf (ih hxt)
      | some jx => simp

/-! ### `SendMasternodePing` -/

theorem SendMasternodePing_sign_failed (env : Env) (e : String) (s : State)
    (hs : s.status = ACTIVE_MASTERNODE_STARTED) (hsig : pingSigned env s = false) :
    SendMasternodePing env e s = (false, "Couldn't sign Masternode Ping", s) := by
  unfold pingSigned at hsig
  unfold SendMasternodePing
  simp [hs, hsig]

theorem SendMasternodePing_too_early (env : Env) (e : String) (s : State) (i : Nat)
    (pmn : CMasternode) (hs : s.status = ACTIVE_MASTERNODE_STARTED)
    (hsig : pingSigned env s = true) (hf : s.mnodeman.Find_vin s.vin = some (i, pmn))
    (hp : env.IsPingedWithin pmn env.MASTERNODE_PING_SECONDS (newPing env s).sigTime = true) :
    SendMasternodePing env e s = (false, "Too early to send Masternode Ping", s) := by
  unfold pingSigned at hsig
  unfold newPing at hp
  unfold SendMasternodePing
  simp [hs, hsig, hf, hp]

theorem SendMasternodePing_unlisted (env : Env) (e : String) (s : State)
    (hs : s.status = ACTIVE_MASTERNODE_STARTED)
    (hsig : pingSigned env s = true) (hf : s.mnodeman.Find_vin s.vin = none) :
    SendMasternodePing env e s =
      (false,
        "PrivateSend Masternode List doesn't include our Masternode, shutting down Masternode pinging service! "
          ++ env.CTxIn_ToString s.vin,
        { s with
          status := ACTIVE_MASTERNODE_NOT_CAPABLE
          notCapableReason :=
            "PrivateSend Masternode List doesn't include our Masternode, shutting down Masternode pinging service! "
              ++ env.CTxIn_ToString s.vin }) := by
  unfold pingSigned at hsig
  unfold SendMasternodePing
  simp [hs, hsig, hf]

theorem SendMasternodePing_sent (env : Env) (e : String) (s : State) (i : Nat)
    (pmn : CMasternode) (hs : s.status = ACTIVE_MASTERNODE_STARTED)
    (hsig : pingSigned env s = true) (hf : s.mnodeman.Find_vin s.vin = some (i, pmn))
    (hp : env.IsPingedWithin pmn env.MASTERNODE_PING_SECONDS (newPing env s).sigTime = false) :
    (SendMasternodePing env e s).1 = true
    ∧ (SendMasternodePing env e s).2.1 = e
    ∧ (SendMasternodePing env e s).2.2.status = ACTIVE_MASTERNODE_STARTED
    ∧ (SendMasternodePing env e s).2.2.notCapableReason = s.notCapableReason
    ∧ (SendMasternodePing env e s).2.2.vin = s.vin
    ∧ (SendMasternodePing env e s).2.2.service = s.service
    ∧ (SendMasternodePing env e s).2.2.net = s.net ++ [NetEvent.RelayPing (newPing env s)]
    ∧ (SendMasternodePing env e s).2.2.mnodeman.vMasternodes
        = s.mnodeman.vMasternodes.set i { pmn with lastPing := newPing env s } := by
  unfold pingSigned at hsig
  unfold newPing at hp ⊢
  unfold SendMasternodePing
  simp only [hs, hsig, hf, hp, ne_eq, not_true_eq_false, if_false, Bool.true_eq_false,
    Bool.false_eq_true]
  refine ⟨trivial, trivial, trivial, trivial, trivial, trivial, trivial, ?_⟩
  split_ifs <;> rfl

theorem ManageStatus_of_started (env : Env) (s : State)
    (hm : env.fMasterNode = true) (hg : pastSyncGate env)
    (hs : s.status = ACTIVE_MASTERNODE_STARTED) :
    ManageStatus env s = (SendMasternodePing env "" s).2.2 := by
  have hgate : ¬ (env.NetworkIDString ≠ CBaseChainParams.REGTEST ∧ env.IsBlockchainSynced = false) := by
    rcases hg with h | h
    · simp [h]
    · simp [h]
  have hi : ManageStatus_initial env s = s := by
    unfold ManageStatus_initial
    simp [hs]
  unfold ManageStatus
  simp only [hm, hgate, if_false, Bool.true_eq_false, hi, hs, ne_eq, not_true_eq_false]

/-- C2, as stated, fails: for a started node whose registry entry was pinged
within `MASTERNODE_PING_SECONDS` of the new ping's signature time,
`SendMasternodePing` does not answer "Too early to send Masternode Ping" when
signing the new ping fails; the signature is checked first and the answer is
"Couldn't sign Masternode Ping". -/
theorem C2_counterexample :
    stStarted.status = ACTIVE_MASTERNODE_STARTED
    ∧ stStarted.mnodeman.Find_vin stStarted.vin = some (0, mnA)
    ∧ envSignFails.IsPingedWithin mnA envSignFails.MASTERNODE_PING_SECONDS
        (newPing envSignFails stStarted).sigTime = true
    ∧ (SendMasternodePing envSignFails "" stStarted).1 = false
    ∧ (SendMasternodePing envSignFails "" stStarted).2.1 = "Couldn't sign Masternode Ping"
    ∧ (SendMasternodePing envSignFails "" stStarted).2.1 ≠ "Too early to send Masternode Ping" := by
  refine ⟨rfl, by decide, by decide, by decide, by decide, by decide⟩

/-- C2, amended: for every started node whose registry entry for the node's
collateral input exists and whose new ping is signed successfully: if the
entry was pinged within `MASTERNODE_PING_SECONDS` of the new ping's signature
time, `SendMasternodePing` returns false with the error message "Too early to
send Masternode Ping" and changes nothing (status stays `STARTED`, the entry's
`lastPing` is unchanged); otherwise it returns true, the status stays
`STARTED`, and the entry is written back with `lastPing` equal to the newly
signed ping, which is what a lookup of the collateral input then finds. -/
theorem C2_ping_rate_limit (env : Env) (errorMessage : String) (s : State) (i : Nat)
    (pmn : CMasternode) (hs : s.status = ACTIVE_MASTERNODE_STARTED)
    (hf : s.mnodeman.Find_vin s.vin = some (i, pmn)) (hsig : pingSigned env s = true) :
    (env.IsPingedWithin pmn env.MASTERNODE_PING_SECONDS (newPing env s).sigTime = true →
      SendMasternodePing env errorMessage s = (false, "Too early to send Masternode Ping", s))
    ∧ (env.IsPingedWithin pmn env.MASTERNODE_PING_SECONDS (newPing env s).sigTime = false →
      (SendMasternodePing env errorMessage s).1 = true
      ∧ (SendMasternodePing env errorMessage s).2.2.status = ACTIVE_MASTERNODE_STARTED
      ∧ (SendMasternodePing env errorMessage s).2.2.mnodeman.vMasternodes
          = s.mnodeman.vMasternodes.set i { pmn with lastPing := newPing env s }
      ∧ (SendMasternodePing env errorMessage s).2.2.mnodeman.Find_vin s.vin
          = some (i, { pmn with lastPing := newPing env s })) := by
  refine ⟨fun hp => SendMasternodePing_too_early env errorMessage s i pmn hs hsig hf hp, ?_⟩
  intro hp
  obtain ⟨h1, _, h3, _, _, _, _, h8⟩ :=
    SendMasternodePing_sent env errorMessage s i pmn hs hsig hf hp
  refine ⟨h1, h3, h8, ?_⟩
  unfold CMasternodeMan.Find_vin at hf ⊢
  rw [h8]
  apply findEntry_set _ _ _ _ _ hf
  have := (findEntry_some _ _ _ _ hf).2
  simpa using this

/-- C2 at concrete inputs: an entry pinged 100 seconds ago is too early, an
entry pinged 900 seconds ago gets the new ping. -/
theorem C2_ping_rate_limit_witness :
    SendMasternodePing envMain "" stStarted
      = (false, "Too early to send Masternode Ping", stStarted)
    ∧ (SendMasternodePing envMain "" stStartedOld).1 = true
    ∧ (SendMasternodePing envMain "" stStartedOld).2.2.mnodeman.Find_vin vinA
        = some (0, { mnAOld with lastPing := newPing envMain stStartedOld }) :=
  ⟨(C2_ping_rate_limit envMain "" stStarted 0 mnA rfl (by decide) (by decide)).1 (by decide),
    ((C2_ping_rate_limit envMain "" stStartedOld 0 mnAOld rfl (by decide) (by decide)).2
      (by decide)).1,
    ((C2_ping_rate_limit envMain "" stStartedOld 0 mnAOld rfl (by decide) (by decide)).2
      (by decide)).2.2.2⟩

/-- C3, as stated, fails: for a started node that the registry does not list,
`SendMasternodePing` leaves the status `STARTED` when signing the new ping
fails (the signature is checked before the registry is consulted), and so does
the `ManageStatus` tick. -/
theorem C3_counterexample :
    stStartedUnlisted.status = ACTIVE_MASTERNODE_STARTED
    ∧ stStartedUnlisted.mnodeman.Find_vin stStartedUnlisted.vin = none
    ∧ envSignFails.fMasterNode = true ∧ envSignFails.IsBlockchainSynced = true
    ∧ (SendMasternodePing envSignFails "" stStartedUnlisted).1 = false
    ∧ (SendMasternodePing envSignFails "" stStartedUnlisted).2.2.status
        = ACTIVE_MASTERNODE_STARTED
    ∧ (ManageStatus envSignFails stStartedUnlisted).status = ACTIVE_MASTERNODE_STARTED := by
  refine ⟨rfl, by decide, rfl, rfl, by decide, by decide, by decide⟩

/-- C3, amended: for every started node whose registry has no entry for the
node's collateral input and whose new ping is signed successfully,
`SendMasternodePing` returns false, sets the status to `NOT_CAPABLE` and
`notCapableReason` to the returned error message (the "doesn't include our
Masternode" text followed by the collateral input), and changes nothing else;
a `ManageStatus` tick of a masternode-enabled node past the sync gate taken in
that situation ends with status `NOT_CAPABLE` and that reason. -/
theorem C3_unlisted_node_is_demoted (env : Env) (errorMessage : String) (s : State)
    (hs : s.status = ACTIVE_MASTERNODE_STARTED)
    (hf : s.mnodeman.Find_vin s.vin = none) (hsig : pingSigned env s = true) :
    (SendMasternodePing env errorMessage s).1 = false
    ∧ (SendMasternodePing env errorMessage s).2.2
        = { s with
            status := ACTIVE_MASTERNODE_NOT_CAPABLE
            notCapableReason := (SendMasternodePing env errorMessage s).2.1 }
    ∧ (SendMasternodePing env errorMessage s).2.1
        = "PrivateSend Masternode List doesn't include our Masternode, shutting down Masternode pinging service! "
            ++ env.CTxIn_ToString s.vin
    ∧ (env.fMasterNode = true → pastSyncGate env →
        (ManageStatus env s).status = ACTIVE_MASTERNODE_NOT_CAPABLE
        ∧ (ManageStatus env s).notCapableReason
            = "PrivateSend Masternode List doesn't include our Masternode, shutting down Masternode pinging service! "
                ++ env.CTxIn_ToString s.vin) := by
  refine ⟨?_, ?_, ?_, ?_⟩
  · rw [SendMasternodePing_unlisted env errorMessage s hs hsig hf]
  · rw [SendMasternodePing_unlisted env errorMessage s hs hsig hf]
  · rw [SendMasternodePing_unlisted env errorMessage s hs hsig hf]
  · intro hm hg
    rw [ManageStatus_of_started env s hm hg hs, SendMasternodePing_unlisted env "" s hs hsig hf]
    exact ⟨rfl, rfl⟩

/-- C3 at a concrete input: a started node with an empty registry and a working
signer is demoted by the tick. -/
theorem C3_unlisted_node_is_demoted_witness :
    (SendMasternodePing envMain "" stStartedUnlisted).1 = false
    ∧ (ManageStatus envMain stStartedUnlisted).status = ACTIVE_MASTERNODE_NOT_CAPABLE :=
  ⟨(C3_unlisted_node_is_demoted envMain "" stStartedUnlisted rfl (by decide) (by decide)).1,
    ((C3_unlisted_node_is_demoted envMain "" stStartedUnlisted rfl (by decide)
      (by decide)).2.2.2 rfl (Or.inr rfl)).1⟩

/-! ### Ticks of a node without funds -/

theorem ManageStatus_zero_balance (env : Env) (s : State)
    (hm : env.fMasterNode = true) (hg : env.IsBlockchainSynced = true)
    (hl : env.IsLocked = false) (hb : env.GetBalance = 0)
    (hs : s.status ≠ ACTIVE_MASTERNODE_STARTED) (hsc : shortcutTaken env s = false) :
    ManageStatus env s =
      { s with
        status := ACTIVE_MASTERNODE_NOT_CAPABLE
        notCapableReason := "Hot node, waiting for remote activation."
        mnodeman := mnodemanChecked env s } := by
  rw [ManageStatus_of_no_shortcut env s hm (Or.inr hg) hs hsc]
  unfold ManageStatus_notStarted
  simp [hl, hb]

theorem shortcutTaken_of_not_initial (env : Env) (s : State)
    (h : statusAfterSync s ≠ ACTIVE_MASTERNODE_INITIAL) : shortcutTaken env s = false := by
  unfold shortcutTaken
  simp [h]

theorem runTicks_zero_balance (envs : List Env) (s : State)
    (henv : ∀ env ∈ envs, env.fMasterNode = true ∧ env.IsBlockchainSynced = true
      ∧ env.IsLocked = false ∧ env.GetBalance = 0)
    (hs : s.status ≠ ACTIVE_MASTERNODE_STARTED)
    (hsc : ∀ env ∈ envs.head?, shortcutTaken env s = false) :
    ∀ t ∈ runTicks s envs, t.status = ACTIVE_MASTERNODE_NOT_CAPABLE
      ∧ t.notCapableReason = "Hot node, waiting for remote activation." := by
  induction envs generalizing s with
  | nil => simp [runTicks]
  | cons env rest ih =>
    obtain ⟨hm, hg, hl, hb⟩ := henv env (List.mem_cons_self _ _)
    have hstep := ManageStatus_zero_balance env s hm hg hl hb hs (hsc env (by simp))
    intro t ht
    simp only [runTicks, List.mem_cons] at ht
    rcases ht with rfl | ht
    · rw [hstep]
      exact ⟨rfl, rfl⟩
    · have hst : (ManageStatus env s).status = ACTIVE_MASTERNODE_NOT_CAPABLE := by rw [hstep]
      refine ih (ManageStatus env s) (fun e he => henv e (List.mem_cons_of_mem _ he))
        (by rw [hst]; decide) ?_ t ht
      intro e _
      apply shortcutTaken_of_not_initial
      unfold statusAfterSync
      rw [hst]
      decide

theorem runTicks_length (envs : List Env) (s : State) :
    (runTicks s envs).length = envs.length := by
  induction envs generalizing s with
  | nil => rfl
  | cons env rest ih => simp [runTicks, ih]

/-- C4, as stated, fails: a masternode-enabled node with zero balance, unlocked
wallet and synced chain ends its first tick `STARTED` when the registry already
lists its operational key as enabled (the remote activation the reason string
of the other path waits for), and a node that is already `STARTED` stays
`STARTED`. -/
theorem C4_counterexample :
    envZeroBalance.fMasterNode = true ∧ envZeroBalance.GetBalance = 0
    ∧ envZeroBalance.IsLocked = false ∧ envZeroBalance.IsBlockchainSynced = true
    ∧ stListed.status = ACTIVE_MASTERNODE_INITIAL
    ∧ (runTicks stListed [envZeroBalance, envZeroBalance]).map (fun t => t.status)
        = [ACTIVE_MASTERNODE_STARTED, ACTIVE_MASTERNODE_STARTED]
    ∧ (runTicks stStarted [envZeroBalance]).map (fun t => t.status)
        = [ACTIVE_MASTERNODE_STARTED] := by
  refine ⟨rfl, rfl, rfl, rfl, rfl, by decide, by decide⟩

/-- C4, amended: for every sequence of `ManageStatus` ticks of a
masternode-enabled node whose wallet balance is zero throughout, with the
wallet unlocked and the chain synced, that does not start in `STARTED` and whose
first tick does not take the registry shortcut, there is one state per tick and
after every tick the status is `NOT_CAPABLE` with the reason "Hot node, waiting
for remote activation."; no tick ends `STARTED`. -/
theorem C4_zero_balance_never_starts (envs : List Env) (s : State)
    (henv : ∀ env ∈ envs, env.fMasterNode = true ∧ env.IsBlockchainSynced = true
      ∧ env.IsLocked = false ∧ env.GetBalance = 0)
    (hs : s.status ≠ ACTIVE_MASTERNODE_STARTED)
    (hsc : ∀ env ∈ envs.head?, shortcutTaken env s = false) :
    (runTicks s envs).length = envs.length
    ∧ ∀ t ∈ runTicks s envs,
        t.status = ACTIVE_MASTERNODE_NOT_CAPABLE
        ∧ t.notCapableReason = "Hot node, waiting for remote activation."
        ∧ containsText t.notCapableReason "waiting for remote activation"
        ∧ t.status ≠ ACTIVE_MASTERNODE_STARTED := by
  refine ⟨runTicks_length envs s, fun t ht => ?_⟩
  obtain ⟨h1, h2⟩ := runTicks_zero_balance envs s henv hs hsc t ht
  refine ⟨h1, h2, ⟨"Hot node, ", ".", ?_⟩, ?_⟩
  · rw [h2]
    decide
  · rw [h1]
    decide

/-- C4 at a concrete input: three ticks of a fresh node with an empty wallet
and an empty registry. -/
theorem C4_zero_balance_never_starts_witness :
    (runTicks stFresh [envZeroBalance, envZeroBalance, envZeroBalance]).length = 3
    ∧ ∀ t ∈ runTicks stFresh [envZeroBalance, envZeroBalance, envZeroBalance],
        t.status = ACTIVE_MASTERNODE_NOT_CAPABLE
        ∧ t.notCapableReason = "Hot node, waiting for remote activation."
        ∧ containsText t.notCapableReason "waiting for remote activation"
        ∧ t.status ≠ ACTIVE_MASTERNODE_STARTED :=
  C4_zero_balance_never_starts [envZeroBalance, envZeroBalance, envZeroBalance] stFresh
    (by
      intro env he
      simp only [List.mem_cons, List.mem_singleton, List.not_mem_nil, or_false, or_self] at he
      subst he
      exact ⟨rfl, rfl, rfl, rfl⟩)
    (by decide)
    (by
      intro env he
      simp only [List.head?_cons, Option.mem_def, Option.some.injEq] at he
      subst he
      decide)

/-! ### The registry shortcut -/

theorem SendMasternodePing_of_listed (env : Env) (e : String) (s : State)
    (hs : s.status = ACTIVE_MASTERNODE_STARTED) (hf : s.mnodeman.Find_vin s.vin ≠ none) :
    (SendMasternodePing env e s).2.2.status = ACTIVE_MASTERNODE_STARTED
    ∧ (SendMasternodePing env e s).2.2.vin = s.vin
    ∧ (SendMasternodePing env e s).2.2.service = s.service
    ∧ (SendMasternodePing env e s).2.2.notCapableReason = s.notCapableReason
    ∧ (SendMasternodePing env e s).2.2.setLockedCoins = s.setLockedCoins := by
  cases hsig : pingSigned env s with
  | false =>
    rw [SendMasternodePing_sign_failed env e s hs hsig]
    exact ⟨hs, rfl, rfl, rfl, rfl⟩
  | true =>
    cases hfe : s.mnodeman.Find_vin s.vin with
    | none => exact absurd hfe hf
    | some ip =>
      obtain ⟨i, pmn⟩ := ip
      cases hp : env.IsPingedWithin pmn env.MASTERNODE_PING_SECONDS (newPing env s).sigTime with
      | true =>
        rw [SendMasternodePing_too_early env e s i pmn hs hsig hfe hp]
        exact ⟨hs, rfl, rfl, rfl, rfl⟩
      | false =>
        obtain ⟨_, _, h3, h4, h5, h6, _, _⟩ :=
          SendMasternodePing_sent env e s i pmn hs hsig hfe hp
        refine ⟨h3, h5, h6, h4, ?_⟩
        unfold pingSigned at hsig
        unfold newPing at hp
        unfold SendMasternodePing
        simp [hs, hsig, hfe, hp]

theorem ownEntry_listed (env : Env) (s : State) (i : Nat) (pmn : CMasternode)
    (h : ownEntry env s = some (i, pmn)) :
    (s.mnodeman.setEntry i pmn).Find_vin pmn.vin ≠ none := by
  unfold ownEntry at h
  cases hf : s.mnodeman.Find_pubKeyMasternode s.pubKeyMasternode with
  | none => simp [hf] at h
  | some jx =>
    obtain ⟨j, x⟩ := jx
    simp [hf] at h
    obtain ⟨rfl, rfl⟩ := h
    unfold CMasternodeMan.Find_pubKeyMasternode at hf
    have hget := (findEntry_some _ _ _ _ hf).1
    have hlt : j < s.mnodeman.vMasternodes.length := by
      by_contra hge
      rw [List.getElem?_eq_none (by omega)] at hget
      exact Option.noConfusion hget
    unfold CMasternodeMan.Find_vin CMasternodeMan.setEntry
    apply findEntry_ne_none _ _ (env.Check x)
    · exact List.mem_iff_getElem?.mpr ⟨j, by simp [List.getElem?_set, hlt]⟩
    · simp

theorem shortcutTaken_eq_true (env : Env) (s : State) (i : Nat) (pmn : CMasternode)
    (hi : statusAfterSync s = ACTIVE_MASTERNODE_INITIAL)
    (ho : ownEntry env s = some (i, pmn)) (ha : activatable env pmn = true) :
    shortcutTaken env s = true := by
  unfold shortcutTaken
  simp [hi, ho, ha]

/-- C6: in a tick of a masternode-enabled node that is past the sync gate with
status `INITIAL` (or `SYNC_IN_PROCESS` just left): if the registry lookup finds
an entry that, after its status is re-checked, is enabled or pre-enabled with
`protocolVersion` equal to `PROTOCOL_VERSION`, the tick ends `STARTED` with
`vin` and `service` copied from that entry, locks no coin, leaves the reason
alone, and is the same whatever the wallet lock, balance, address, port,
connectivity, collateral and broadcast collaborators would answer; if no entry
is found, or the entry is neither enabled nor pre-enabled, or its protocol
version differs, the tick is the capability evaluation of lines 43-133 (so, for
one, a locked wallet ends it `NOT_CAPABLE` with "Wallet is locked."). -/
theorem C6_registry_shortcut (env other : Env) (s : State)
    (hm : env.fMasterNode = true) (hg : pastSyncGate env)
    (hi : s.status = ACTIVE_MASTERNODE_INITIAL ∨ s.status = ACTIVE_MASTERNODE_SYNC_IN_PROCESS) :
    (∀ i pmn, ownEntry env s = some (i, pmn) →
      (env.IsEnabled pmn = true ∨ env.IsPreEnabled pmn = true) →
      pmn.protocolVersion = env.PROTOCOL_VERSION →
        (ManageStatus env s).status = ACTIVE_MASTERNODE_STARTED
        ∧ (ManageStatus env s).vin = pmn.vin
        ∧ (ManageStatus env s).service = pmn.addr
        ∧ (ManageStatus env s).setLockedCoins = s.setLockedCoins
        ∧ (ManageStatus env s).notCapableReason = s.notCapableReason
        ∧ ManageStatus (withCapabilityAnswers env other) s = ManageStatus env s)
    ∧ ((ownEntry env s = none
        ∨ ∃ i pmn, ownEntry env s = some (i, pmn)
            ∧ ((env.IsEnabled pmn = false ∧ env.IsPreEnabled pmn = false)
                ∨ pmn.protocolVersion ≠ env.PROTOCOL_VERSION)) →
        ManageStatus env s
          = ManageStatus_notStarted env ""
              { s with status := ACTIVE_MASTERNODE_INITIAL, mnodeman := mnodemanChecked env s }
        ∧ (env.IsLocked = true →
            (ManageStatus env s).status = ACTIVE_MASTERNODE_NOT_CAPABLE
            ∧ (ManageStatus env s).notCapableReason = "Wallet is locked.")) := by
  have hsync : statusAfterSync s = ACTIVE_MASTERNODE_INITIAL := by
    unfold statusAfterSync
    rcases hi with h | h <;> simp [h]
  have hgate : ¬ (env.NetworkIDString ≠ CBaseChainParams.REGTEST
      ∧ env.IsBlockchainSynced = false) := by
    rcases hg with h | h
    · simp [h]
    · simp [h]
  constructor
  · intro i pmn ho hen hpv
    have hact : activatable env pmn = true := by
      unfold activatable
      rcases hen with h | h <;> simp [h, hpv]
    have hsc := shortcutTaken_eq_true env s i pmn hsync ho hact
    obtain ⟨j, q, hq, _, hinit⟩ := ManageStatus_initial_of_shortcut env s hm hsc
    rw [ho] at hq
    simp only [Option.some.injEq, Prod.mk.injEq] at hq
    obtain ⟨rfl, rfl⟩ := hq
    have hM : ManageStatus env s = (SendMasternodePing env ""
        { s with status := ACTIVE_MASTERNODE_STARTED, vin := pmn.vin, service := pmn.addr,
                 mnodeman := s.mnodeman.setEntry i pmn }).2.2 := by
      unfold ManageStatus
      simp only [hm, hgate, if_false, Bool.true_eq_false, hinit, ne_eq, not_true_eq_false]
    have hM2 : ManageStatus (withCapabilityAnswers env other) s = ManageStatus env s := by
      have h1 : ManageStatus_initial (withCapabilityAnswers env other) s
          = ManageStatus_initial env s := rfl
      have h3 : ∀ e t, SendMasternodePing (withCapabilityAnswers env other) e t
          = SendMasternodePing env e t := fun _ _ => rfl
      have hm2 : (withCapabilityAnswers env other).fMasterNode = true := hm
      have hgate2 : ¬ ((withCapabilityAnswers env other).NetworkIDString
          ≠ CBaseChainParams.REGTEST
          ∧ (withCapabilityAnswers env other).IsBlockchainSynced = false) := hgate
      rw [hM]
      unfold ManageStatus
      simp only [hm2, hgate2, if_false, Bool.true_eq_false, h1, h3, hinit, ne_eq,
        not_true_eq_false]
    obtain ⟨h1, h2, h3, h4, h5⟩ := SendMasternodePing_of_listed env ""
      { s with status := ACTIVE_MASTERNODE_STARTED, vin := pmn.vin, service := pmn.addr,
               mnodeman := s.mnodeman.setEntry i pmn } rfl (ownEntry_listed env s i pmn ho)
    rw [← hM] at h1 h2 h3 h4 h5
    exact ⟨h1, h2, h3, h5, h4, hM2⟩
  · intro hno
    have hsc : shortcutTaken env s = false := by
      unfold shortcutTaken
      rcases hno with h | ⟨i, pmn, h, h2⟩
      · simp [h]
      · unfold activatable
        rcases h2 with ⟨ha, hb⟩ | hc
        · simp [h, ha, hb]
        · simp [h, hc]
    have hs : s.status ≠ ACTIVE_MASTERNODE_STARTED := by
      rcases hi with h | h <;> simp [h]
    have hM := ManageStatus_of_no_shortcut env s hm hg hs hsc
    rw [hsync] at hM
    refine ⟨hM, fun hl => ?_⟩
    rw [hM]
    unfold ManageStatus_notStarted
    simp [hl]

/-- C6 at concrete inputs: a fresh node that the registry lists as enabled
starts from the entry; a fresh node with an empty registry and a locked wallet
runs the capability checks. -/
theorem C6_registry_shortcut_witness :
    ((ManageStatus envZeroBalance stListed).status = ACTIVE_MASTERNODE_STARTED
      ∧ (ManageStatus envZeroBalance stListed).vin = vinA)
    ∧ ((ManageStatus envLocked stFresh).status = ACTIVE_MASTERNODE_NOT_CAPABLE
      ∧ (ManageStatus envLocked stFresh).notCapableReason = "Wallet is locked.") :=
  ⟨⟨((C6_registry_shortcut envZeroBalance envMain stListed rfl (Or.inr rfl) (Or.inl rfl)).1
        0 mnA (by decide) (Or.inl (by decide)) (by decide)).1,
      ((C6_registry_shortcut envZeroBalance envMain stListed rfl (Or.inr rfl) (Or.inl rfl)).1
        0 mnA (by decide) (Or.inl (by decide)) (by decide)).2.1⟩,
    ((C6_registry_shortcut envLocked envMain stFresh rfl (Or.inr rfl) (Or.inl rfl)).2
      (Or.inl (by decide))).2 rfl⟩

/-! ### The capability checks -/

theorem ManageStatus_notStarted_of_port_ok (env : Env) (e : String) (s : State)
    (hl : env.IsLocked = false) (hb : env.GetBalance ≠ 0) (ha : addressAvailable env s)
    (hp : ¬ portRuleViolated env.NetworkIDString (tickService env s).port
      env.mainnetDefaultPort) :
    ManageStatus_notStarted env e s =
      ManageStatus_afterPort env e
        { s with status := ACTIVE_MASTERNODE_NOT_CAPABLE, notCapableReason := "",
                 service := tickService env s } := by
  unfold addressAvailable at ha
  unfold portRuleViolated tickService at hp
  unfold ManageStatus_notStarted tickService
  simp only [hl, hb, if_false, Bool.false_eq_true]
  by_cases hE : env.strMasterNodeAddr.isEmpty = true
  · simp only [hE, if_true, ha hE, Bool.true_eq_false, if_false] at hp ⊢
    by_cases hN : env.NetworkIDString = CBaseChainParams.MAIN
    · by_cases hP : ((env.GetLocal s.service).2.port : Int) = env.mainnetDefaultPort
      · simp [hN, hP]
      · simp [hN, hP] at hp
    · by_cases hP : ((env.GetLocal s.service).2.port : Int) = env.mainnetDefaultPort
      · simp [hN, hP] at hp
      · simp [hN, hP]
  · simp only [hE, if_false, Bool.true_eq_false, Bool.false_eq_true] at hp ⊢
    by_cases hN : env.NetworkIDString = CBaseChainParams.MAIN
    · by_cases hP : ((env.CService_ofString env.strMasterNodeAddr).port : Int)
          = env.mainnetDefaultPort
      · simp [hN, hP]
      · simp [hN, hP] at hp
    · by_cases hP : ((env.CService_ofString env.strMasterNodeAddr).port : Int)
          = env.mainnetDefaultPort
      · simp [hN, hP] at hp
      · simp [hN, hP]

theorem ManageStatus_notStarted_status_of_early_failure (env : Env) (e : String) (s : State)
    (h : ¬ (env.IsLocked = false ∧ env.GetBalance ≠ 0 ∧ addressAvailable env s
      ∧ ¬ portRuleViolated env.NetworkIDString (tickService env s).port
          env.mainnetDefaultPort)) :
    (ManageStatus_notStarted env e s).status = ACTIVE_MASTERNODE_NOT_CAPABLE := by
  unfold addressAvailable portRuleViolated tickService at h
  unfold ManageStatus_notStarted
  by_cases hl : env.IsLocked = true
  · simp [hl]
  · simp only [hl, if_false]
    by_cases hb : env.GetBalance = 0
    · simp [hb]
    · simp only [hb, if_false]
      simp only [Bool.not_eq_true] at hl
      by_cases hE : env.strMasterNodeAddr.isEmpty = true
      · simp only [hE, if_true]
        cases hG : (env.GetLocal s.service).1 with
        | false => simp
        | true =>
          simp only [Bool.true_eq_false, if_false]
          by_cases hN : env.NetworkIDString = CBaseChainParams.MAIN
          · by_cases hP : ((env.GetLocal s.service).2.port : Int) = env.mainnetDefaultPort
            · simp [hl, hb, hE, hG, hN, hP] at h
            · simp [hN, hP]
          · by_cases hP : ((env.GetLocal s.service).2.port : Int) = env.mainnetDefaultPort
            · simp [hN, hP]
            · simp [hl, hb, hE, hG, hN, hP] at h
      · simp only [hE, if_false, Bool.true_eq_false, Bool.false_eq_true]
        by_cases hN : env.NetworkIDString = CBaseChainParams.MAIN
        · by_cases hP : ((env.CService_ofString env.strMasterNodeAddr).port : Int)
              = env.mainnetDefaultPort
          · simp [hl, hb, hE, hN, hP] at h
          · simp [hN, hP]
        · by_cases hP : ((env.CService_ofString env.strMasterNodeAddr).port : Int)
              = env.mainnetDefaultPort
          · simp [hN, hP]
          · simp [hl, hb, hE, hN, hP] at h

theorem ManageStatus_afterPort_started_iff (env : Env) (e : String) (s : State)
    (hs : s.status ≠ ACTIVE_MASTERNODE_STARTED) :
    (ManageStatus_afterPort env e s).status = ACTIVE_MASTERNODE_STARTED
      ↔ (env.ConnectNode s.service = true
          ∧ (env.GetMasternodeVinAndKeys s.vin).1 = true
          ∧ env.nMasternodeMinimumConfirmations
              ≤ env.GetInputAge (env.GetMasternodeVinAndKeys s.vin).2.1
          ∧ (CreateBroadcast env (env.GetMasternodeVinAndKeys s.vin).2.1 s.service
              (env.GetMasternodeVinAndKeys s.vin).2.2.2 (env.GetMasternodeVinAndKeys s.vin).2.2.1
              s.keyMasternode s.pubKeyMasternode e env.CMasternodeBroadcast_empty).1 = true) := by
  unfold ManageStatus_afterPort
  simp only
  split_ifs with h1 h2 h3 h4
  · simp [h1, hs]
  · simp [hs]
    intro _ _ hle
    exact absurd h3 (not_lt.mpr hle)
  · simp [hs, h4]
  · simp only [Bool.not_eq_false] at h1 h4
    simp [h1, h2, h4, not_lt.mp h3]
  · simp [hs, h2]

theorem ManageStatus_afterPort_started (env : Env) (e : String) (s : State)
    (h1 : env.ConnectNode s.service = true)
    (h2 : (env.GetMasternodeVinAndKeys s.vin).1 = true)
    (h3 : env.nMasternodeMinimumConfirmations
      ≤ env.GetInputAge (env.GetMasternodeVinAndKeys s.vin).2.1)
    (h4 : (CreateBroadcast env (env.GetMasternodeVinAndKeys s.vin).2.1 s.service
      (env.GetMasternodeVinAndKeys s.vin).2.2.2 (env.GetMasternodeVinAndKeys s.vin).2.2.1
      s.keyMasternode s.pubKeyMasternode e env.CMasternodeBroadcast_empty).1 = true) :
    ManageStatus_afterPort env e s =
      { s with
        status := ACTIVE_MASTERNODE_STARTED
        vin := (env.GetMasternodeVinAndKeys s.vin).2.1
        setLockedCoins := LockCoin s.setLockedCoins (env.GetMasternodeVinAndKeys s.vin).2.1.prevout
        mnodeman := env.UpdateMasternodeList s.mnodeman
          (CreateBroadcast env (env.GetMasternodeVinAndKeys s.vin).2.1 s.service
            (env.GetMasternodeVinAndKeys s.vin).2.2.2 (env.GetMasternodeVinAndKeys s.vin).2.2.1
            s.keyMasternode s.pubKeyMasternode e env.CMasternodeBroadcast_empty).2.2
        net := s.net ++ [NetEvent.ConnectNode s.service] ++ [NetEvent.RelayBroadcast
          (CreateBroadcast env (env.GetMasternodeVinAndKeys s.vin).2.1 s.service
            (env.GetMasternodeVinAndKeys s.vin).2.2.2 (env.GetMasternodeVinAndKeys s.vin).2.2.1
            s.keyMasternode s.pubKeyMasternode e env.CMasternodeBroadcast_empty).2.2] } := by
  unfold ManageStatus_afterPort
  simp [h1, h2, not_lt.mpr h3, h4]

theorem ManageStatus_afterPort_too_new (env : Env) (e : String) (s : State)
    (h1 : env.ConnectNode s.service = true)
    (h2 : (env.GetMasternodeVinAndKeys s.vin).1 = true)
    (h3 : env.GetInputAge (env.GetMasternodeVinAndKeys s.vin).2.1
      < env.nMasternodeMinimumConfirmations) :
    ManageStatus_afterPort env e s =
      { s with
        status := ACTIVE_MASTERNODE_INPUT_TOO_NEW
        notCapableReason :=
          "Masternode input must have at least " ++ toString env.nMasternodeMinimumConfirmations
            ++ " confirmations" ++ " - "
            ++ toString (env.GetInputAge (env.GetMasternodeVinAndKeys s.vin).2.1)
            ++ " confirmations"
        vin := (env.GetMasternodeVinAndKeys s.vin).2.1
        net := s.net ++ [NetEvent.ConnectNode s.service] } := by
  unfold ManageStatus_afterPort
  simp [h1, h2, h3, GetStatus]

theorem ManageStatus_afterPort_not_too_new (env : Env) (e : String) (s : State)
    (hs : s.status ≠ ACTIVE_MASTERNODE_INPUT_TOO_NEW)
    (h3 : env.nMasternodeMinimumConfirmations
      ≤ env.GetInputAge (env.GetMasternodeVinAndKeys s.vin).2.1) :
    (ManageStatus_afterPort env e s).status ≠ ACTIVE_MASTERNODE_INPUT_TOO_NEW := by
  unfold ManageStatus_afterPort
  simp only
  split_ifs with h1 h2 h4 h5
  · exact hs
  · exact absurd h4 (not_lt.mpr h3)
  · exact hs
  · simp
  · exact hs

theorem mem_LockCoin (setLockedCoins : List COutPoint) (output : COutPoint) :
    output ∈ LockCoin setLockedCoins output := by
  unfold LockCoin
  split_ifs with h
  · exact h
  · simp

theorem ManageStatus_reaches_afterPort (env : Env) (s : State)
    (hm : env.fMasterNode = true) (hg : pastSyncGate env)
    (hs : s.status ≠ ACTIVE_MASTERNODE_STARTED) (hsc : shortcutTaken env s = false)
    (hl : env.IsLocked = false) (hb : env.GetBalance ≠ 0) (ha : addressAvailable env s)
    (hp : ¬ portRuleViolated env.NetworkIDString (tickService env s).port
      env.mainnetDefaultPort) :
    ManageStatus env s = ManageStatus_afterPort env "" (stateAtProbe env s) := by
  have ha1 : addressAvailable env
      { s with status := statusAfterSync s, mnodeman := mnodemanChecked env s } := ha
  have hp1 : ¬ portRuleViolated env.NetworkIDString
      (tickService env
        { s with status := statusAfterSync s, mnodeman := mnodemanChecked env s }).port
      env.mainnetDefaultPort := hp
  rw [ManageStatus_of_no_shortcut env s hm hg hs hsc,
    ManageStatus_notStarted_of_port_ok env ""
      { s with status := statusAfterSync s, mnodeman := mnodemanChecked env s } hl hb ha1 hp1]
  rfl

/-- C7: in a tick of a masternode-enabled node past the sync gate that starts
in a status other than `STARTED` and does not take the registry shortcut, the
tick ends `STARTED` if and only if all capability checks pass (wallet unlocked,
balance non-zero, external address available, port rule satisfied,
connectivity probe succeeds, a collateral output is selected, its confirmation
count is at least the consensus minimum, broadcast construction succeeds); and
when it ends `STARTED` the state is the old one with the endpoint and the
selected collateral stored, the collateral output locked in the wallet, the
constructed broadcast passed to `UpdateMasternodeList` and relayed after the
connectivity probe, and an empty `notCapableReason`. -/
theorem C7_started_iff_all_checks_pass (env : Env) (s : State)
    (hm : env.fMasterNode = true) (hg : pastSyncGate env)
    (hs : s.status ≠ ACTIVE_MASTERNODE_STARTED) (hsc : shortcutTaken env s = false) :
    ((ManageStatus env s).status = ACTIVE_MASTERNODE_STARTED ↔ allChecksPass env s)
    ∧ ((ManageStatus env s).status = ACTIVE_MASTERNODE_STARTED →
        ManageStatus env s =
          { s with
            status := ACTIVE_MASTERNODE_STARTED
            notCapableReason := ""
            service := tickService env s
            vin := selectedVin env s
            setLockedCoins := LockCoin s.setLockedCoins (selectedVin env s).prevout
            mnodeman := env.UpdateMasternodeList (mnodemanChecked env s) (tickBroadcast env s).2.2
            net := s.net ++ [NetEvent.ConnectNode (tickService env s)]
              ++ [NetEvent.RelayBroadcast (tickBroadcast env s).2.2] }
        ∧ (selectedVin env s).prevout ∈ (ManageStatus env s).setLockedCoins
        ∧ NetEvent.RelayBroadcast (tickBroadcast env s).2.2 ∈ (ManageStatus env s).net
        ∧ (ManageStatus env s).notCapableReason = "") := by
  have hM := ManageStatus_of_no_shortcut env s hm hg hs hsc
  have key : (ManageStatus env s).status = ACTIVE_MASTERNODE_STARTED → allChecksPass env s := by
    intro hst
    rw [hM] at hst
    have hearly : env.IsLocked = false ∧ env.GetBalance ≠ 0 ∧ addressAvailable env s
        ∧ ¬ portRuleViolated env.NetworkIDString (tickService env s).port
            env.mainnetDefaultPort := by
      by_contra hcon
      have := ManageStatus_notStarted_status_of_early_failure env ""
        { s with status := statusAfterSync s, mnodeman := mnodemanChecked env s } hcon
      rw [this] at hst
      exact absurd hst (by decide)
    obtain ⟨hl, hb, ha, hp⟩ := hearly
    have hst2 := hst
    rw [← hM, ManageStatus_reaches_afterPort env s hm hg hs hsc hl hb ha hp] at hst2
    obtain ⟨h1, h2, h3, h4⟩ :=
      (ManageStatus_afterPort_started_iff env "" (stateAtProbe env s)
        (by simp [stateAtProbe])).mp hst2
    exact ⟨⟨hl, hb, ha, hp, h1⟩, h2, h3, h4⟩
  have back : allChecksPass env s →
      ManageStatus env s =
        { s with
          status := ACTIVE_MASTERNODE_STARTED
          notCapableReason := ""
          service := tickService env s
          vin := selectedVin env s
          setLockedCoins := LockCoin s.setLockedCoins (selectedVin env s).prevout
          mnodeman := env.UpdateMasternodeList (mnodemanChecked env s) (tickBroadcast env s).2.2
          net := s.net ++ [NetEvent.ConnectNode (tickService env s)]
            ++ [NetEvent.RelayBroadcast (tickBroadcast env s).2.2] } := by
    rintro ⟨⟨hl, hb, ha, hp, h1⟩, h2, h3, h4⟩
    rw [ManageStatus_reaches_afterPort env s hm hg hs hsc hl hb ha hp,
      ManageStatus_afterPort_started env "" (stateAtProbe env s) h1 h2 h3 h4]
    rfl
  refine ⟨⟨key, fun h => by rw [back h]⟩, fun hst => ?_⟩
  have heq := back (key hst)
  refine ⟨heq, ?_, ?_, ?_⟩
  · rw [heq]
    exact mem_LockCoin _ _
  · rw [heq]
    simp
  · rw [heq]

/-- C7 at a concrete input: a fresh, funded, synced main-network node on the
default port ends its first tick `STARTED`. -/
theorem C7_started_iff_all_checks_pass_witness :
    (ManageStatus envMain stFresh).status = ACTIVE_MASTERNODE_STARTED
    ∧ vinA.prevout ∈ (ManageStatus envMain stFresh).setLockedCoins :=
  ⟨(C7_started_iff_all_checks_pass envMain stFresh rfl (Or.inr rfl) (by decide)
      (by decide)).1.2
      ⟨⟨rfl, by decide, fun he => absurd he (by decide), by decide, rfl⟩, rfl, by decide,
        by decide⟩,
    ((C7_started_iff_all_checks_pass envMain stFresh rfl (Or.inr rfl) (by decide)
      (by decide)).2 (by decide)).2.1⟩

/-- C8: in a tick of a masternode-enabled node past the sync gate, not started
and not taking the registry shortcut, in which all checks before collateral
selection pass and a collateral output is selected: if its confirmation count
is below `nMasternodeMinimumConfirmations`, the tick ends `INPUT_TOO_NEW`, the
reason is the status text followed by the confirmation count, the set of locked
coins is unchanged, the only call to the network is the connectivity probe (no
broadcast is relayed), and the registry is as the status re-check of lines
33-41 left it (untouched when the tick did not start in `INITIAL` or
`SYNC_IN_PROCESS`); if the count is at least the minimum the tick does not end
`INPUT_TOO_NEW`. -/
theorem C8_input_too_new (env : Env) (s : State)
    (hm : env.fMasterNode = true) (hg : pastSyncGate env)
    (hs : s.status ≠ ACTIVE_MASTERNODE_STARTED) (hsc : shortcutTaken env s = false)
    (hc : checksBeforeCollateralPass env s)
    (hsel : (env.GetMasternodeVinAndKeys s.vin).1 = true) :
    (env.GetInputAge (selectedVin env s) < env.nMasternodeMinimumConfirmations →
      ManageStatus env s =
        { s with
          status := ACTIVE_MASTERNODE_INPUT_TOO_NEW
          notCapableReason :=
            "Masternode input must have at least "
              ++ toString env.nMasternodeMinimumConfirmations ++ " confirmations" ++ " - "
              ++ toString (env.GetInputAge (selectedVin env s)) ++ " confirmations"
          service := tickService env s
          vin := selectedVin env s
          mnodeman := mnodemanChecked env s
          net := s.net ++ [NetEvent.ConnectNode (tickService env s)] }
      ∧ containsText (ManageStatus env s).notCapableReason
          (toString (env.GetInputAge (selectedVin env s)))
      ∧ (ManageStatus env s).setLockedCoins = s.setLockedCoins
      ∧ (statusAfterSync s ≠ ACTIVE_MASTERNODE_INITIAL →
          (ManageStatus env s).mnodeman = s.mnodeman))
    ∧ (env.nMasternodeMinimumConfirmations ≤ env.GetInputAge (selectedVin env s) →
      (ManageStatus env s).status ≠ ACTIVE_MASTERNODE_INPUT_TOO_NEW) := by
  obtain ⟨hl, hb, ha, hp, h1⟩ := hc
  have hM := ManageStatus_reaches_afterPort env s hm hg hs hsc hl hb ha hp
  constructor
  · intro hage
    have heq : ManageStatus env s =
        { s with
          status := ACTIVE_MASTERNODE_INPUT_TOO_NEW
          notCapableReason :=
            "Masternode input must have at least "
              ++ toString env.nMasternodeMinimumConfirmations ++ " confirmations" ++ " - "
              ++ toString (env.GetInputAge (selectedVin env s)) ++ " confirmations"
          service := tickService env s
          vin := selectedVin env s
          mnodeman := mnodemanChecked env s
          net := s.net ++ [NetEvent.ConnectNode (tickService env s)] } :=
      hM.trans (ManageStatus_afterPort_too_new env "" (stateAtProbe env s) h1 hsel hage)
    refine ⟨heq, ?_, ?_, ?_⟩
    · rw [heq]
      exact ⟨"Masternode input must have at least "
          ++ toString env.nMasternodeMinimumConfirmations ++ " confirmations" ++ " - ",
        " confirmations", rfl⟩
    · rw [heq]
    · intro hni
      rw [heq]
      simp [mnodemanChecked, hni]
  · intro hage
    rw [hM]
    exact ManageStatus_afterPort_not_too_new env "" (stateAtProbe env s)
      (by simp [stateAtProbe]) hage

/-- C8 at a concrete input: a collateral of 3 confirmations under a minimum of
15 leaves a fresh node `INPUT_TOO_NEW` with nothing locked. -/
theorem C8_input_too_new_witness :
    (ManageStatus envTooNew stFresh).status = ACTIVE_MASTERNODE_INPUT_TOO_NEW
    ∧ (ManageStatus envTooNew stFresh).setLockedCoins = [] := by
  have h := (C8_input_too_new envTooNew stFresh rfl (Or.inr rfl) (by decide) (by decide)
    ⟨rfl, by decide, fun he => absurd he (by decide), by decide, rfl⟩ rfl).1 (by decide)
  exact ⟨by rw [h.1], h.2.2.1⟩

/-! ### Broadcast construction -/

theorem CreateBroadcast_true_iff (env : Env) (vin : CTxIn) (service : CService)
    (keyCollateralAddress : CKey) (pubKeyCollateralAddress : CPubKey)
    (keyMasternode : CKey) (pubKeyMasternode : CPubKey) (errorMessage : String)
    (mnb : CMasternodeBroadcast) :
    (CreateBroadcast env vin service keyCollateralAddress pubKeyCollateralAddress
        keyMasternode pubKeyMasternode errorMessage mnb).1 = true
      ↔ (env.fImporting = false ∧ env.fReindex = false
          ∧ (signedPingFor env vin keyMasternode pubKeyMasternode).1 = true
          ∧ (env.SignBroadcast
              (broadcastToSign env vin service pubKeyCollateralAddress keyMasternode
                pubKeyMasternode) keyCollateralAddress).1 = true) := by
  unfold CreateBroadcast signedPingFor broadcastToSign signedPingFor CMasternodeBroadcast.Sign
  simp only
  split_ifs with h1 h2 h3
  · simp only [Bool.or_eq_true] at h1
    rcases h1 with h | h <;> simp [h]
  · simp [h2]
  · simp only [Bool.or_eq_true, not_or, Bool.not_eq_true] at h1
    simp [h3]
  · simp only [Bool.or_eq_true, not_or, Bool.not_eq_true] at h1
    simp only [Bool.not_eq_false] at h2 h3
    simp [h1.1, h1.2, h2, h3]

theorem CreateBroadcast_of_true (env : Env) (vin : CTxIn) (service : CService)
    (keyCollateralAddress : CKey) (pubKeyCollateralAddress : CPubKey)
    (keyMasternode : CKey) (pubKeyMasternode : CPubKey) (errorMessage : String)
    (mnb : CMasternodeBroadcast)
    (h : (CreateBroadcast env vin service keyCollateralAddress pubKeyCollateralAddress
        keyMasternode pubKeyMasternode errorMessage mnb).1 = true) :
    CreateBroadcast env vin service keyCollateralAddress pubKeyCollateralAddress
        keyMasternode pubKeyMasternode errorMessage mnb
      = (true, errorMessage,
          (CMasternodeBroadcast.Sign env
            (broadcastToSign env vin service pubKeyCollateralAddress keyMasternode
              pubKeyMasternode) keyCollateralAddress).2) := by
  obtain ⟨h1, h2, h3, h4⟩ := (CreateBroadcast_true_iff env vin service keyCollateralAddress
    pubKeyCollateralAddress keyMasternode pubKeyMasternode errorMessage mnb).mp h
  unfold signedPingFor at h3
  unfold broadcastToSign signedPingFor at h4
  unfold CreateBroadcast broadcastToSign signedPingFor CMasternodeBroadcast.Sign
  simp [h1, h2, h3, h4]

/-- C11: the key-argument `CreateBroadcast` returns true if and only if the node
is neither importing nor reindexing, the ping for the given collateral input is
signed successfully with the operational key, and the broadcast is signed
successfully with the collateral key; when it returns true the error message is
left alone and the output broadcast carries exactly the given service,
collateral input, collateral public key and operational public key, protocol
version `PROTOCOL_VERSION`, and as `lastPing` that signed ping, which is a ping
for the same collateral input; the signature time and signature it carries are
the signer's answer for the broadcast with the ping already embedded. -/
theorem C11_CreateBroadcast_contract (env : Env) (vin : CTxIn) (service : CService)
    (keyCollateralAddress : CKey) (pubKeyCollateralAddress : CPubKey)
    (keyMasternode : CKey) (pubKeyMasternode : CPubKey) (errorMessage : String)
    (mnb : CMasternodeBroadcast) :
    ((CreateBroadcast env vin service keyCollateralAddress pubKeyCollateralAddress
        keyMasternode pubKeyMasternode errorMessage mnb).1 = true
      ↔ (env.fImporting = false ∧ env.fReindex = false
          ∧ (signedPingFor env vin keyMasternode pubKeyMasternode).1 = true
          ∧ (env.SignBroadcast
              (broadcastToSign env vin service pubKeyCollateralAddress keyMasternode
                pubKeyMasternode) keyCollateralAddress).1 = true))
    ∧ ((CreateBroadcast env vin service keyCollateralAddress pubKeyCollateralAddress
        keyMasternode pubKeyMasternode errorMessage mnb).1 = true →
      (CreateBroadcast env vin service keyCollateralAddress pubKeyCollateralAddress
        keyMasternode pubKeyMasternode errorMessage mnb).2.1 = errorMessage
      ∧ (CreateBroadcast env vin service keyCollateralAddress pubKeyCollateralAddress
        keyMasternode pubKeyMasternode errorMessage mnb).2.2
        = { vin := vin
            addr := service
            pubKeyCollateralAddress := pubKeyCollateralAddress
            pubKeyMasternode := pubKeyMasternode
            protocolVersion := env.PROTOCOL_VERSION
            lastPing := (signedPingFor env vin keyMasternode pubKeyMasternode).2
            sigTime := (env.SignBroadcast
              (broadcastToSign env vin service pubKeyCollateralAddress keyMasternode
                pubKeyMasternode) keyCollateralAddress).2.1
            vchSig := (env.SignBroadcast
              (broadcastToSign env vin service pubKeyCollateralAddress keyMasternode
                pubKeyMasternode) keyCollateralAddress).2.2 }
      ∧ (signedPingFor env vin keyMasternode pubKeyMasternode).2.vin = vin
      ∧ (broadcastToSign env vin service pubKeyCollateralAddress keyMasternode
          pubKeyMasternode).lastPing
          = (signedPingFor env vin keyMasternode pubKeyMasternode).2) := by
  refine ⟨CreateBroadcast_true_iff env vin service keyCollateralAddress
    pubKeyCollateralAddress keyMasternode pubKeyMasternode errorMessage mnb, fun h => ?_⟩
  rw [CreateBroadcast_of_true env vin service keyCollateralAddress pubKeyCollateralAddress
    keyMasternode pubKeyMasternode errorMessage mnb h]
  exact ⟨rfl, rfl, rfl, rfl⟩

/-- C11 at concrete inputs: with working signers the broadcast for `vinA` is
built and carries `vinA`; while reindexing the call returns false. -/
theorem C11_CreateBroadcast_contract_witness :
    (CreateBroadcast envMain vinA serviceA [3] [2] [4] [5] "" default).2.2.vin = vinA
    ∧ (CreateBroadcast envMain vinA serviceA [3] [2] [4] [5] "" default).2.2.lastPing.vin = vinA
    ∧ (CreateBroadcast envReindex vinA serviceA [3] [2] [4] [5] "" default).1 ≠ true := by
  have h := C11_CreateBroadcast_contract envMain vinA serviceA [3] [2] [4] [5] "" default
  have h2 := C11_CreateBroadcast_contract envReindex vinA serviceA [3] [2] [4] [5] "" default
  have ht := h.1.2 ⟨rfl, rfl, rfl, rfl⟩
  refine ⟨?_, ?_, fun hc => ?_⟩
  · rw [(h.2 ht).2.1]
  · rw [(h.2 ht).2.1]
    exact (h.2 ht).2.2.1
  · exact absurd (h2.1.1 hc).2.1 (by decide)

/-! ### A node that is not a masternode -/

/-- C17: when `fMasterNode` is false, `ManageStatus` returns the state it was
given (status, reason, vin, service, keys, registry with its seen caches,
wallet locks, network calls), for every prior state and all collaborator
answers, and `EnableHotColdMasterNode` returns false and changes nothing; when
`fMasterNode` is true, `EnableHotColdMasterNode` returns true and sets status
to `STARTED`, `vin` and `service` to its arguments, and nothing else. -/
theorem C17_not_a_masternode (env : Env) (s : State) (newVin : CTxIn)
    (newService : CService) :
    (env.fMasterNode = false →
      ManageStatus env s = s
      ∧ EnableHotColdMasterNode env newVin newService s = (false, s))
    ∧ (env.fMasterNode = true →
      EnableHotColdMasterNode env newVin newService s
        = (true, { s with status := ACTIVE_MASTERNODE_STARTED, vin := newVin,
                          service := newService })) := by
  constructor
  · intro h
    unfold ManageStatus EnableHotColdMasterNode
    simp [h]
  · intro h
    unfold EnableHotColdMasterNode
    simp [h]

/-- C17 at concrete inputs: a node that is not a masternode keeps a locked-out
started state as it is; a masternode is switched to `STARTED` for `vinA`. -/
theorem C17_not_a_masternode_witness :
    ManageStatus envNotMasternode stStartedUnlisted = stStartedUnlisted
    ∧ (EnableHotColdMasterNode envNotMasternode vinA serviceA stFresh).1 = false
    ∧ (EnableHotColdMasterNode envMain vinA serviceA stFresh).2.vin = vinA := by
  have h1 := (C17_not_a_masternode envNotMasternode stStartedUnlisted vinA serviceA).1 rfl
  have h2 := (C17_not_a_masternode envNotMasternode stFresh vinA serviceA).1 rfl
  have h3 := (C17_not_a_masternode envMain stFresh vinA serviceA).2 rfl
  refine ⟨h1.1, ?_, ?_⟩
  · rw [h2.2]
  · rw [h3]

/-! ### The first failing check -/

theorem ManageStatus_wallet_locked (env : Env) (s : State)
    (hm : env.fMasterNode = true) (hg : pastSyncGate env)
    (hs : s.status ≠ ACTIVE_MASTERNODE_STARTED) (hsc : shortcutTaken env s = false)
    (hl : env.IsLocked = true) :
    ManageStatus env s =
      { s with
        status := ACTIVE_MASTERNODE_NOT_CAPABLE
        notCapableReason := "Wallet is locked."
        mnodeman := mnodemanChecked env s } := by
  rw [ManageStatus_of_no_shortcut env s hm hg hs hsc]
  unfold ManageStatus_notStarted
  simp [hl]

theorem ManageStatus_no_address (env : Env) (s : State)
    (hm : env.fMasterNode = true) (hg : pastSyncGate env)
    (hs : s.status ≠ ACTIVE_MASTERNODE_STARTED) (hsc : shortcutTaken env s = false)
    (hl : env.IsLocked = false) (hb : env.GetBalance ≠ 0) (ha : ¬ addressAvailable env s) :
    ManageStatus env s =
      { s with
        status := ACTIVE_MASTERNODE_NOT_CAPABLE
        notCapableReason :=
          "Can't detect external address. Please use the masternodeaddr configuration option."
        service := tickService env s
        mnodeman := mnodemanChecked env s } := by
  unfold addressAvailable at ha
  simp only [Classical.not_imp, Bool.not_eq_true] at ha
  rw [ManageStatus_of_no_shortcut env s hm hg hs hsc]
  unfold ManageStatus_notStarted tickService
  simp [hl, hb, ha.1, ha.2]

theorem ManageStatus_port_violated (env : Env) (s : State)
    (hm : env.fMasterNode = true) (hg : pastSyncGate env)
    (hs : s.status ≠ ACTIVE_MASTERNODE_STARTED) (hsc : shortcutTaken env s = false)
    (hl : env.IsLocked = false) (hb : env.GetBalance ≠ 0) (ha : addressAvailable env s)
    (hp : portRuleViolated env.NetworkIDString (tickService env s).port
      env.mainnetDefaultPort) :
    ManageStatus env s =
      { s with
        status := ACTIVE_MASTERNODE_NOT_CAPABLE
        notCapableReason :=
          "Invalid port: " ++ toString (tickService env s).port
            ++ (if env.NetworkIDString = CBaseChainParams.MAIN then " - only " else " - ")
            ++ toString env.mainnetDefaultPort
            ++ (if env.NetworkIDString = CBaseChainParams.MAIN then " is supported on mainnet."
                else " is only supported on mainnet.")
        service := tickService env s
        mnodeman := mnodemanChecked env s } := by
  unfold addressAvailable at ha
  unfold portRuleViolated tickService at hp
  rw [ManageStatus_of_no_shortcut env s hm hg hs hsc]
  unfold ManageStatus_notStarted tickService
  simp only [hl, hb, if_false, Bool.false_eq_true]
  by_cases hE : env.strMasterNodeAddr.isEmpty = true
  · simp only [hE, if_true, ha hE, Bool.true_eq_false, if_false] at hp ⊢
    rcases hp with ⟨hN, hP⟩ | ⟨hN, hP⟩
    · simp [hN, hP]
    · simp [hN, hP]
  · simp only [hE, if_false, Bool.true_eq_false, Bool.false_eq_true] at hp ⊢
    rcases hp with ⟨hN, hP⟩ | ⟨hN, hP⟩
    · simp [hN, hP]
    · simp [hN, hP]

theorem ManageStatus_afterPort_connect_failed (env : Env) (e : String) (s : State)
    (h1 : env.ConnectNode s.service = false) :
    ManageStatus_afterPort env e s =
      { s with
        notCapableReason := "Could not connect to " ++ env.CService_ToString s.service
        net := s.net ++ [NetEvent.ConnectNode s.service] } := by
  unfold ManageStatus_afterPort
  simp [h1]

theorem ManageStatus_afterPort_no_coins (env : Env) (e : String) (s : State)
    (h1 : env.ConnectNode s.service = true)
    (h2 : (env.GetMasternodeVinAndKeys s.vin).1 = false) :
    ManageStatus_afterPort env e s =
      { s with
        notCapableReason := "Could not find suitable coins!"
        vin := (env.GetMasternodeVinAndKeys s.vin).2.1
        net := s.net ++ [NetEvent.ConnectNode s.service] } := by
  unfold ManageStatus_afterPort
  simp [h1, h2]

theorem ManageStatus_afterPort_broadcast_failed (env : Env) (e : String) (s : State)
    (h1 : env.ConnectNode s.service = true)
    (h2 : (env.GetMasternodeVinAndKeys s.vin).1 = true)
    (h3 : env.nMasternodeMinimumConfirmations
      ≤ env.GetInputAge (env.GetMasternodeVinAndKeys s.vin).2.1)
    (h4 : (CreateBroadcast env (env.GetMasternodeVinAndKeys s.vin).2.1 s.service
      (env.GetMasternodeVinAndKeys s.vin).2.2.2 (env.GetMasternodeVinAndKeys s.vin).2.2.1
      s.keyMasternode s.pubKeyMasternode e env.CMasternodeBroadcast_empty).1 = false) :
    ManageStatus_afterPort env e s =
      { s with
        notCapableReason := "Error on CreateBroadcast: "
          ++ (CreateBroadcast env (env.GetMasternodeVinAndKeys s.vin).2.1 s.service
            (env.GetMasternodeVinAndKeys s.vin).2.2.2 (env.GetMasternodeVinAndKeys s.vin).2.2.1
            s.keyMasternode s.pubKeyMasternode e env.CMasternodeBroadcast_empty).2.1
        vin := (env.GetMasternodeVinAndKeys s.vin).2.1
        setLockedCoins := LockCoin s.setLockedCoins (env.GetMasternodeVinAndKeys s.vin).2.1.prevout
        net := s.net ++ [NetEvent.ConnectNode s.service] } := by
  unfold ManageStatus_afterPort
  simp [h1, h2, not_lt.mpr h3, h4]

/-- C12: in a tick of a masternode-enabled node past the sync gate that enters
the capability evaluation (not started, registry shortcut not taken), status
and reason are those of the first failing check in the order wallet locked,
balance zero, no external address, port rule violated, connectivity probe
failed, no collateral selectable, collateral too new, broadcast construction
failed; every failure but collateral-too-new leaves `NOT_CAPABLE`; and the end
state is built from the answers up to the failing check only: the probe is
recorded from the fifth check on, `vin` is written from the sixth on, the coin
is locked only in the eighth, and the registry is never updated. -/
theorem C12_first_failing_check (env : Env) (s : State)
    (hm : env.fMasterNode = true) (hg : pastSyncGate env)
    (hs : s.status ≠ ACTIVE_MASTERNODE_STARTED) (hsc : shortcutTaken env s = false) :
    (env.IsLocked = true →
      ManageStatus env s =
        { s with
          status := ACTIVE_MASTERNODE_NOT_CAPABLE
          notCapableReason := "Wallet is locked."
          mnodeman := mnodemanChecked env s })
    ∧ (env.IsLocked = false → env.GetBalance = 0 →
      ManageStatus env s =
        { s with
          status := ACTIVE_MASTERNODE_NOT_CAPABLE
          notCapableReason := "Hot node, waiting for remote activation."
          mnodeman := mnodemanChecked env s })
    ∧ (env.IsLocked = false → env.GetBalance ≠ 0 → ¬ addressAvailable env s →
      ManageStatus env s =
        { s with
          status := ACTIVE_MASTERNODE_NOT_CAPABLE
          notCapableReason :=
            "Can't detect external address. Please use the masternodeaddr configuration option."
          service := tickService env s
          mnodeman := mnodemanChecked env s })
    ∧ (env.IsLocked = false → env.GetBalance ≠ 0 → addressAvailable env s →
      portRuleViolated env.NetworkIDString (tickService env s).port env.mainnetDefaultPort →
      ManageStatus env s =
        { s with
          status := ACTIVE_MASTERNODE_NOT_CAPABLE
          notCapableReason :=
            "Invalid port: " ++ toString (tickService env s).port
              ++ (if env.NetworkIDString = CBaseChainParams.MAIN then " - only " else " - ")
              ++ toString env.mainnetDefaultPort
              ++ (if env.NetworkIDString = CBaseChainParams.MAIN
                  then " is supported on mainnet." else " is only supported on mainnet.")
          service := tickService env s
          mnodeman := mnodemanChecked env s })
    ∧ (env.IsLocked = false → env.GetBalance ≠ 0 → addressAvailable env s →
      ¬ portRuleViolated env.NetworkIDString (tickService env s).port env.mainnetDefaultPort →
      env.ConnectNode (tickService env s) = false →
      ManageStatus env s =
        { s with
          status := ACTIVE_MASTERNODE_NOT_CAPABLE
          notCapableReason := "Could not connect to " ++ env.CService_ToString (tickService env s)
          service := tickService env s
          mnodeman := mnodemanChecked env s
          net := s.net ++ [NetEvent.ConnectNode (tickService env s)] })
    ∧ (checksBeforeCollateralPass env s → (env.GetMasternodeVinAndKeys s.vin).1 = false →
      ManageStatus env s =
        { s with
          status := ACTIVE_MASTERNODE_NOT_CAPABLE
          notCapableReason := "Could not find suitable coins!"
          service := tickService env s
          vin := selectedVin env s
          mnodeman := mnodemanChecked env s
          net := s.net ++ [NetEvent.ConnectNode (tickService env s)] })
    ∧ (checksBeforeCollateralPass env s → (env.GetMasternodeVinAndKeys s.vin).1 = true →
      env.GetInputAge (selectedVin env s) < env.nMasternodeMinimumConfirmations →
      ManageStatus env s =
        { s with
          status := ACTIVE_MASTERNODE_INPUT_TOO_NEW
          notCapableReason :=
            "Masternode input must have at least "
              ++ toString env.nMasternodeMinimumConfirmations ++ " confirmations" ++ " - "
              ++ toString (env.GetInputAge (selectedVin env s)) ++ " confirmations"
          service := tickService env s
          vin := selectedVin env s
          mnodeman := mnodemanChecked env s
          net := s.net ++ [NetEvent.ConnectNode (tickService env s)] })
    ∧ (checksBeforeCollateralPass env s → (env.GetMasternodeVinAndKeys s.vin).1 = true →
      env.nMasternodeMinimumConfirmations ≤ env.GetInputAge (selectedVin env s) →
      (tickBroadcast env s).1 = false →
      ManageStatus env s =
        { s with
          status := ACTIVE_MASTERNODE_NOT_CAPABLE
          notCapableReason := "Error on CreateBroadcast: " ++ (tickBroadcast env s).2.1
          service := tickService env s
          vin := selectedVin env s
          setLockedCoins := LockCoin s.setLockedCoins (selectedVin env s).prevout
          mnodeman := mnodemanChecked env s
          net := s.net ++ [NetEvent.ConnectNode (tickService env s)] }) := by
  refine ⟨?_, ?_, ?_, ?_, ?_, ?_, ?_, ?_⟩
  · exact ManageStatus_wallet_locked env s hm hg hs hsc
  · intro hl hb
    rw [ManageStatus_of_no_shortcut env s hm hg hs hsc]
    unfold ManageStatus_notStarted
    simp [hl, hb]
  · exact ManageStatus_no_address env s hm hg hs hsc
  · exact ManageStatus_port_violated env s hm hg hs hsc
  · intro hl hb ha hp h1
    exact (ManageStatus_reaches_afterPort env s hm hg hs hsc hl hb ha hp).trans
      (ManageStatus_afterPort_connect_failed env "" (stateAtProbe env s) h1)
  · rintro ⟨hl, hb, ha, hp, h1⟩ h2
    exact (ManageStatus_reaches_afterPort env s hm hg hs hsc hl hb ha hp).trans
      (ManageStatus_afterPort_no_coins env "" (stateAtProbe env s) h1 h2)
  · rintro ⟨hl, hb, ha, hp, h1⟩ h2 h3
    exact (ManageStatus_reaches_afterPort env s hm hg hs hsc hl hb ha hp).trans
      (ManageStatus_afterPort_too_new env "" (stateAtProbe env s) h1 h2 h3)
  · rintro ⟨hl, hb, ha, hp, h1⟩ h2 h3 h4
    exact (ManageStatus_reaches_afterPort env s hm hg hs hsc hl hb ha hp).trans
      (ManageStatus_afterPort_broadcast_failed env "" (stateAtProbe env s) h1 h2 h3 h4)

/-- C12 at concrete inputs: a locked wallet stops the tick at the first check;
an unreachable endpoint stops it at the fifth, after the probe and before any
coin is selected or locked. -/
theorem C12_first_failing_check_witness :
    (ManageStatus envLocked stFresh).notCapableReason = "Wallet is locked."
    ∧ (ManageStatus envUnreachable stFresh).notCapableReason = "Could not connect to 203.0.113.5"
    ∧ (ManageStatus envUnreachable stFresh).setLockedCoins = [] := by
  have h1 := (C12_first_failing_check envLocked stFresh rfl (Or.inr rfl) (by decide)
    (by decide)).1 rfl
  have h5 := (C12_first_failing_check envUnreachable stFresh rfl (Or.inr rfl) (by decide)
    (by decide)).2.2.2.2.1 rfl (by decide) (fun he => absurd he (by decide)) (by decide) rfl
  refine ⟨by rw [h1], ?_, ?_⟩
  · rw [h5]
    decide
  · rw [h5]
    rfl

/-- C16: in a tick of a masternode-enabled node past the sync gate, not started
and not taking the registry shortcut, in which all checks up to and including
the confirmation-depth check pass but the key-argument `CreateBroadcast` fails,
the tick ends `NOT_CAPABLE` with the reason "Error on CreateBroadcast: "
followed by the error message of the construction; the registry is as lines
33-41 left it (`UpdateMasternodeList` is not called), the only call to the
network is the connectivity probe (nothing is relayed), and the selected
collateral output is in the wallet's set of locked coins. -/
theorem C16_broadcast_failure_keeps_lock (env : Env) (s : State)
    (hm : env.fMasterNode = true) (hg : pastSyncGate env)
    (hs : s.status ≠ ACTIVE_MASTERNODE_STARTED) (hsc : shortcutTaken env s = false)
    (hc : checksBeforeCollateralPass env s)
    (hsel : (env.GetMasternodeVinAndKeys s.vin).1 = true)
    (hage : env.nMasternodeMinimumConfirmations ≤ env.GetInputAge (selectedVin env s))
    (hfail : (tickBroadcast env s).1 = false) :
    (ManageStatus env s).status = ACTIVE_MASTERNODE_NOT_CAPABLE
    ∧ (ManageStatus env s).notCapableReason
        = "Error on CreateBroadcast: " ++ (tickBroadcast env s).2.1
    ∧ startsWith (ManageStatus env s).notCapableReason "Error on CreateBroadcast: "
    ∧ (ManageStatus env s).mnodeman = mnodemanChecked env s
    ∧ (statusAfterSync s ≠ ACTIVE_MASTERNODE_INITIAL → (ManageStatus env s).mnodeman = s.mnodeman)
    ∧ (ManageStatus env s).net = s.net ++ [NetEvent.ConnectNode (tickService env s)]
    ∧ (∀ mnb, NetEvent.RelayBroadcast mnb ∈ (ManageStatus env s).net →
        NetEvent.RelayBroadcast mnb ∈ s.net)
    ∧ (ManageStatus env s).setLockedCoins = LockCoin s.setLockedCoins (selectedVin env s).prevout
    ∧ (selectedVin env s).prevout ∈ (ManageStatus env s).setLockedCoins := by
  obtain ⟨hl, hb, ha, hp, h1⟩ := hc
  have heq : ManageStatus env s =
      { s with
        status := ACTIVE_MASTERNODE_NOT_CAPABLE
        notCapableReason := "Error on CreateBroadcast: " ++ (tickBroadcast env s).2.1
        service := tickService env s
        vin := selectedVin env s
        setLockedCoins := LockCoin s.setLockedCoins (selectedVin env s).prevout
        mnodeman := mnodemanChecked env s
        net := s.net ++ [NetEvent.ConnectNode (tickService env s)] } :=
    (ManageStatus_reaches_afterPort env s hm hg hs hsc hl hb ha hp).trans
      (ManageStatus_afterPort_broadcast_failed env "" (stateAtProbe env s) h1 hsel hage hfail)
  rw [heq]
  refine ⟨rfl, rfl, ⟨_, rfl⟩, rfl, ?_, rfl, ?_, rfl, mem_LockCoin _ _⟩
  · intro hni
    simp [mnodemanChecked, hni]
  · intro mnb hmem
    simpa using hmem

/-- C16 at a concrete input: with a signer that fails on broadcasts the tick of
a fresh node ends `NOT_CAPABLE` and `vinA` stays locked. -/
theorem C16_broadcast_failure_keeps_lock_witness :
    (ManageStatus envBroadcastSignFails stFresh).status = ACTIVE_MASTERNODE_NOT_CAPABLE
    ∧ vinA.prevout ∈ (ManageStatus envBroadcastSignFails stFresh).setLockedCoins := by
  have h := C16_broadcast_failure_keeps_lock envBroadcastSignFails stFresh rfl (Or.inr rfl)
    (by decide) (by decide)
    ⟨rfl, by decide, fun he => absurd he (by decide), by decide, rfl⟩ rfl (by decide)
    (by decide)
  exact ⟨h.1, h.2.2.2.2.2.2.2.2⟩

/-! ### Status and reason after a tick -/

theorem append_ne_empty_left (a x : String) (h : a ≠ "") : a ++ x ≠ "" := by
  intro heq
  have hd := congrArg String.data heq
  simp only [String.data_append] at hd
  have ha : a.data = [] := (List.append_eq_nil.mp hd).1
  exact h (String.ext ha)

theorem append_ne_empty_right (x a : String) (h : a ≠ "") : x ++ a ≠ "" := by
  intro heq
  have hd := congrArg String.data heq
  simp only [String.data_append] at hd
  have ha : a.data = [] := (List.append_eq_nil.mp hd).2
  exact h (String.ext ha)

theorem ManageStatus_afterPort_outcome (env : Env) (e : String) (s : State)
    (hs : s.status = ACTIVE_MASTERNODE_NOT_CAPABLE) :
    (ManageStatus_afterPort env e s).status = ACTIVE_MASTERNODE_STARTED
    ∨ (((ManageStatus_afterPort env e s).status = ACTIVE_MASTERNODE_NOT_CAPABLE
        ∨ (ManageStatus_afterPort env e s).status = ACTIVE_MASTERNODE_INPUT_TOO_NEW)
      ∧ (ManageStatus_afterPort env e s).notCapableReason ≠ "") := by
  have l1 : ("Could not connect to " : String) ≠ "" := by decide
  have l2 : (" confirmations" : String) ≠ "" := by decide
  have l3 : ("Error on CreateBroadcast: " : String) ≠ "" := by decide
  have l4 : ("Could not find suitable coins!" : String) ≠ "" := by decide
  unfold ManageStatus_afterPort
  simp only
  split_ifs <;> first
    | exact Or.inl rfl
    | exact Or.inr ⟨Or.inl hs, append_ne_empty_left _ _ l1⟩
    | exact Or.inr ⟨Or.inr rfl, append_ne_empty_right _ _ l2⟩
    | exact Or.inr ⟨Or.inl hs, append_ne_empty_left _ _ l3⟩
    | exact Or.inr ⟨Or.inl hs, l4⟩

theorem ManageStatus_notStarted_outcome (env : Env) (e : String) (s : State) :
    (ManageStatus_notStarted env e s).status = ACTIVE_MASTERNODE_STARTED
    ∨ (((ManageStatus_notStarted env e s).status = ACTIVE_MASTERNODE_NOT_CAPABLE
        ∨ (ManageStatus_notStarted env e s).status = ACTIVE_MASTERNODE_INPUT_TOO_NEW)
      ∧ (ManageStatus_notStarted env e s).notCapableReason ≠ "") := by
  have l1 : ("Wallet is locked." : String) ≠ "" := by decide
  have l2 : ("Hot node, waiting for remote activation." : String) ≠ "" := by decide
  have l3 : ("Can't detect external address. Please use the masternodeaddr configuration option."
      : String) ≠ "" := by decide
  have l4 : (" is supported on mainnet." : String) ≠ "" := by decide
  have l5 : (" is only supported on mainnet." : String) ≠ "" := by decide
  unfold ManageStatus_notStarted
  simp only
  split_ifs <;> first
    | exact ManageStatus_afterPort_outcome env e _ rfl
    | exact Or.inr ⟨Or.inl rfl, l1⟩
    | exact Or.inr ⟨Or.inl rfl, l2⟩
    | exact Or.inr ⟨Or.inl rfl, l3⟩
    | exact Or.inr ⟨Or.inl rfl, append_ne_empty_right _ _ l4⟩
    | exact Or.inr ⟨Or.inl rfl, append_ne_empty_right _ _ l5⟩

theorem SendMasternodePing_outcome (env : Env) (e : String) (s : State)
    (hs : s.status = ACTIVE_MASTERNODE_STARTED) :
    (SendMasternodePing env e s).2.2.status = ACTIVE_MASTERNODE_STARTED
    ∨ ((SendMasternodePing env e s).2.2.status = ACTIVE_MASTERNODE_NOT_CAPABLE
      ∧ (SendMasternodePing env e s).2.2.notCapableReason ≠ "") := by
  cases hf : s.mnodeman.Find_vin s.vin with
  | some ip => exact Or.inl (SendMasternodePing_of_listed env e s hs (by simp [hf])).1
  | none =>
    cases hsig : pingSigned env s with
    | false =>
      rw [SendMasternodePing_sign_failed env e s hs hsig]
      exact Or.inl hs
    | true =>
      rw [SendMasternodePing_unlisted env e s hs hsig hf]
      exact Or.inr ⟨rfl, append_ne_empty_left _ _ (by decide)⟩

theorem ManageStatus_blocked_at_gate (env : Env) (s : State)
    (hm : env.fMasterNode = true) (hg : ¬ pastSyncGate env) :
    ManageStatus env s = { s with status := ACTIVE_MASTERNODE_SYNC_IN_PROCESS } := by
  unfold pastSyncGate at hg
  simp only [not_or, Bool.not_eq_true] at hg
  unfold ManageStatus
  simp [hm, hg.1, hg.2]

theorem ManageStatus_outcome (env : Env) (s : State)
    (hm : env.fMasterNode = true) (hg : pastSyncGate env) :
    (ManageStatus env s).status = ACTIVE_MASTERNODE_STARTED
    ∨ (((ManageStatus env s).status = ACTIVE_MASTERNODE_NOT_CAPABLE
        ∨ (ManageStatus env s).status = ACTIVE_MASTERNODE_INPUT_TOO_NEW)
      ∧ (ManageStatus env s).notCapableReason ≠ "") := by
  have hgate : ¬ (env.NetworkIDString ≠ CBaseChainParams.REGTEST
      ∧ env.IsBlockchainSynced = false) := by
    rcases hg with h | h
    · simp [h]
    · simp [h]
  unfold ManageStatus
  simp only [hm, hgate, if_false, Bool.true_eq_false]
  split_ifs with h
  · exact ManageStatus_notStarted_outcome env "" _
  · simp only [ne_eq, not_not] at h
    rcases SendMasternodePing_outcome env "" _ h with h1 | ⟨h1, h2⟩
    · exact Or.inl h1
    · exact Or.inr ⟨Or.inl h1, h2⟩

theorem ManageStatus_started_only_if_checks_pass (env : Env) (s : State)
    (hm : env.fMasterNode = true) (hg : pastSyncGate env)
    (hs : s.status ≠ ACTIVE_MASTERNODE_STARTED) (hsc : shortcutTaken env s = false)
    (hst : (ManageStatus env s).status = ACTIVE_MASTERNODE_STARTED) : allChecksPass env s := by
  have hM := ManageStatus_of_no_shortcut env s hm hg hs hsc
  have hearly : env.IsLocked = false ∧ env.GetBalance ≠ 0 ∧ addressAvailable env s
      ∧ ¬ portRuleViolated env.NetworkIDString (tickService env s).port
          env.mainnetDefaultPort := by
    by_contra hcon
    have := ManageStatus_notStarted_status_of_early_failure env ""
      { s with status := statusAfterSync s, mnodeman := mnodemanChecked env s } hcon
    rw [hM, this] at hst
    exact absurd hst (by decide)
  obtain ⟨hl, hb, ha, hp⟩ := hearly
  rw [ManageStatus_reaches_afterPort env s hm hg hs hsc hl hb ha hp] at hst
  obtain ⟨h1, h2, h3, h4⟩ :=
    (ManageStatus_afterPort_started_iff env "" (stateAtProbe env s)
      (by simp [stateAtProbe])).mp hst
  exact ⟨⟨hl, hb, ha, hp, h1⟩, h2, h3, h4⟩

/-- C15: after every tick of a masternode-enabled node, from any prior state and
for all collaborator answers, a resulting status of `NOT_CAPABLE` or
`INPUT_TOO_NEW` comes with a non-empty `notCapableReason`. -/
theorem C15_reason_is_not_empty (env : Env) (s : State) (hm : env.fMasterNode = true)
    (h : (ManageStatus env s).status = ACTIVE_MASTERNODE_NOT_CAPABLE
      ∨ (ManageStatus env s).status = ACTIVE_MASTERNODE_INPUT_TOO_NEW) :
    (ManageStatus env s).notCapableReason ≠ "" := by
  by_cases hg : pastSyncGate env
  · rcases ManageStatus_outcome env s hm hg with h1 | ⟨_, h2⟩
    · rw [h1] at h
      rcases h with h | h <;> exact absurd h (by decide)
    · exact h2
  · rw [ManageStatus_blocked_at_gate env s hm hg] at h
    rcases h with h | h <;> simp at h

/-- C15 at concrete inputs: a broadcast construction that fails without an
error message (the node is reindexing) and a demotion inside
`SendMasternodePing` both leave a non-empty reason. -/
theorem C15_reason_is_not_empty_witness :
    (ManageStatus envReindex stFresh).notCapableReason ≠ ""
    ∧ (ManageStatus envMain stStartedUnlisted).notCapableReason ≠ "" :=
  ⟨C15_reason_is_not_empty envReindex stFresh rfl (Or.inl (by decide)),
    C15_reason_is_not_empty envMain stStartedUnlisted rfl (Or.inl (by decide))⟩

/-- C14: after every tick of a masternode-enabled node, from any prior state and
for all collaborator answers, the status is `SYNC_IN_PROCESS`, `NOT_CAPABLE`,
`INPUT_TOO_NEW` or `STARTED`, never `INITIAL`, and it is `SYNC_IN_PROCESS` only
when the tick was stopped at the sync gate; the registry shortcut is taken only
by a tick that starts in `INITIAL` or `SYNC_IN_PROCESS`, and a tick that starts
in another status leaves lines 31-41 without consulting the registry; so a tick
that starts in `NOT_CAPABLE` or `INPUT_TOO_NEW` ends `STARTED` only when it is
past the sync gate and all capability checks pass. -/
theorem C14_status_after_a_tick (env : Env) (s : State) (hm : env.fMasterNode = true) :
    ((ManageStatus env s).status = ACTIVE_MASTERNODE_SYNC_IN_PROCESS
      ∨ (ManageStatus env s).status = ACTIVE_MASTERNODE_NOT_CAPABLE
      ∨ (ManageStatus env s).status = ACTIVE_MASTERNODE_INPUT_TOO_NEW
      ∨ (ManageStatus env s).status = ACTIVE_MASTERNODE_STARTED)
    ∧ (ManageStatus env s).status ≠ ACTIVE_MASTERNODE_INITIAL
    ∧ ((ManageStatus env s).status = ACTIVE_MASTERNODE_SYNC_IN_PROCESS → ¬ pastSyncGate env)
    ∧ (shortcutTaken env s = true →
        s.status = ACTIVE_MASTERNODE_INITIAL ∨ s.status = ACTIVE_MASTERNODE_SYNC_IN_PROCESS)
    ∧ (s.status ≠ ACTIVE_MASTERNODE_INITIAL → s.status ≠ ACTIVE_MASTERNODE_SYNC_IN_PROCESS →
        ManageStatus_initial env s = s)
    ∧ ((s.status = ACTIVE_MASTERNODE_NOT_CAPABLE ∨ s.status = ACTIVE_MASTERNODE_INPUT_TOO_NEW) →
        (ManageStatus env s).status = ACTIVE_MASTERNODE_STARTED →
        pastSyncGate env ∧ allChecksPass env s) := by
  have hshort : shortcutTaken env s = true →
      s.status = ACTIVE_MASTERNODE_INITIAL ∨ s.status = ACTIVE_MASTERNODE_SYNC_IN_PROCESS := by
    intro h
    unfold shortcutTaken statusAfterSync at h
    simp only [Bool.and_eq_true, decide_eq_true_eq] at h
    by_cases h1 : s.status = ACTIVE_MASTERNODE_SYNC_IN_PROCESS
    · exact Or.inr h1
    · simp only [h1, if_false] at h
      exact Or.inl h.1
  have hstat : ((ManageStatus env s).status = ACTIVE_MASTERNODE_SYNC_IN_PROCESS
        ∧ ¬ pastSyncGate env)
      ∨ (ManageStatus env s).status = ACTIVE_MASTERNODE_NOT_CAPABLE
      ∨ (ManageStatus env s).status = ACTIVE_MASTERNODE_INPUT_TOO_NEW
      ∨ (ManageStatus env s).status = ACTIVE_MASTERNODE_STARTED := by
    by_cases hg : pastSyncGate env
    · rcases ManageStatus_outcome env s hm hg with h1 | ⟨h1 | h1, _⟩
      · exact Or.inr (Or.inr (Or.inr h1))
      · exact Or.inr (Or.inl h1)
      · exact Or.inr (Or.inr (Or.inl h1))
    · rw [ManageStatus_blocked_at_gate env s hm hg]
      exact Or.inl ⟨rfl, hg⟩
  refine ⟨?_, ?_, ?_, hshort, ?_, ?_⟩
  · rcases hstat with ⟨h, _⟩ | h | h | h
    · exact Or.inl h
    · exact Or.inr (Or.inl h)
    · exact Or.inr (Or.inr (Or.inl h))
    · exact Or.inr (Or.inr (Or.inr h))
  · rcases hstat with ⟨h, _⟩ | h | h | h <;> rw [h] <;> decide
  · intro hsync
    rcases hstat with ⟨_, h⟩ | h | h | h
    · exact h
    · rw [h] at hsync
      exact absurd hsync (by decide)
    · rw [h] at hsync
      exact absurd hsync (by decide)
    · rw [h] at hsync
      exact absurd hsync (by decide)
  · intro h1 h2
    unfold ManageStatus_initial
    simp [h1, h2]
  · intro hs hst
    have hg : pastSyncGate env := by
      by_contra hg
      rw [ManageStatus_blocked_at_gate env s hm hg] at hst
      simp at hst
    have hns : s.status ≠ ACTIVE_MASTERNODE_STARTED := by
      rcases hs with h | h <;> rw [h] <;> decide
    have hsc : shortcutTaken env s = false := by
      cases hc : shortcutTaken env s with
      | false => rfl
      | true =>
        rcases hshort hc with h | h <;> rcases hs with h2 | h2 <;> rw [h] at h2 <;>
          exact absurd h2 (by decide)
    exact ⟨hg, ManageStatus_started_only_if_checks_pass env s hm hg hns hsc hst⟩

/-- C14 at concrete inputs: a demoted node that the registry lists again as
enabled is not started by the shortcut; with an empty wallet its tick ends
`NOT_CAPABLE`, and the funded tick that ends `STARTED` passes every check. -/
theorem C14_status_after_a_tick_witness :
    (ManageStatus envZeroBalance stDemotedListed).status ≠ ACTIVE_MASTERNODE_INITIAL
    ∧ ManageStatus_initial envZeroBalance stDemotedListed = stDemotedListed
    ∧ allChecksPass envMain stDemotedListed :=
  ⟨(C14_status_after_a_tick envZeroBalance stDemotedListed rfl).2.1,
    (C14_status_after_a_tick envZeroBalance stDemotedListed rfl).2.2.2.2.1 (by decide)
      (by decide),
    ((C14_status_after_a_tick envMain stDemotedListed rfl).2.2.2.2.2 (Or.inl rfl)
      (by decide)).2⟩

/-! ### The seen-message caches -/

theorem mapModify_of_mapCount_eq_zero {K V : Type} [DecidableEq K] (m : List (K × V)) (k : K)
    (f : V → V) (h : mapCount m k = 0) : mapModify m k f = m := by
  unfold mapCount at h
  unfold mapModify
  induction m with
  | nil => rfl
  | cons a t ih =>
    by_cases ha : a.1 = k
    · simp [ha] at h
    · have ht : (if (t.any fun kv => decide (kv.1 = k)) = true then 1 else 0) = 0 := by
        simp only [List.any_cons, ha, decide_False, Bool.false_or] at h
        exact h
      simp only [List.map_cons, ha, if_false, ih ht]

theorem mapKeys_mapModify {K V : Type} [DecidableEq K] (m : List (K × V)) (k : K)
    (f : V → V) : mapKeys (mapModify m k f) = mapKeys m := by
  unfold mapKeys mapModify
  induction m with
  | nil => rfl
  | cons a t ih =>
    simp only [List.map_cons, ih]
    split_ifs <;> rfl

theorem mapFind_mapModify {K V : Type} [DecidableEq K] (m : List (K × V)) (k : K)
    (f : V → V) (k' : K) :
    mapFind (mapModify m k f) k' = (mapFind m k').map (fun v => if k' = k then f v else v) := by
  unfold mapFind mapModify
  induction m with
  | nil => rfl
  | cons a t ih =>
    by_cases hak : a.1 = k
    · by_cases hak' : a.1 = k'
      · have hkk : k' = k := hak' ▸ hak
        simp [List.find?_cons, hak, hkk]
      · simp only [List.map_cons, hak, if_true, List.find?_cons, hak', decide_False]
        rw [← hak]
        simp only [hak', decide_False]
        rw [hak]
        exact ih
    · by_cases hak' : a.1 = k'
      · have hkk : ¬ k' = k := fun h => hak (hak'.trans h)
        simp [List.find?_cons, hak, hak', hkk]
      · simp only [List.map_cons, hak, if_false, List.find?_cons, hak', decide_False]
        exact ih

theorem mapCount_eq_zero_iff {K V : Type} [DecidableEq K] (m : List (K × V)) (k : K) :
    mapCount m k = 0 ↔ mapFind m k = none := by
  unfold mapCount mapFind
  induction m with
  | nil => simp
  | cons a t ih =>
    by_cases ha : a.1 = k
    · simp [List.find?_cons, ha]
    · simp only [List.any_cons, ha, decide_False, Bool.false_or, List.find?_cons]
      exact ih

theorem mapFind_mapInsert {K V : Type} [DecidableEq K] (m : List (K × V)) (k : K) (v : V)
    (k' : K) :
    mapFind (mapInsert m k v) k'
      = (mapFind m k').orElse (fun _ => if k' = k then some v else none) := by
  unfold mapInsert
  by_cases hc : mapCount m k = 0
  · simp only [hc, if_true]
    unfold mapFind
    rw [List.find?_append]
    cases hf : List.find? (fun kv => decide (kv.1 = k')) m with
    | some x => simp
    | none =>
      by_cases hk : k' = k
      · simp [hk]
      · have hk2 : ¬ k = k' := fun h => hk h.symm
        simp [hk, hk2]
  · simp only [hc, if_false]
    cases hf : mapFind m k' with
    | some x => simp
    | none =>
      have hne : ¬ k' = k := by
        intro h
        rw [h] at hf
        exact hc ((mapCount_eq_zero_iff m k).mpr hf)
      simp [hne]

theorem SendMasternodePing_not_running (env : Env) (e : String) (s : State)
    (hs : s.status ≠ ACTIVE_MASTERNODE_STARTED) :
    SendMasternodePing env e s = (false, "Masternode is not in a running status", s) := by
  unfold SendMasternodePing
  simp [hs]

theorem SendMasternodePing_sent_caches (env : Env) (e : String) (s : State) (i : Nat)
    (pmn : CMasternode) (hs : s.status = ACTIVE_MASTERNODE_STARTED)
    (hsig : pingSigned env s = true) (hf : s.mnodeman.Find_vin s.vin = some (i, pmn))
    (hp : env.IsPingedWithin pmn env.MASTERNODE_PING_SECONDS (newPing env s).sigTime = false) :
    (SendMasternodePing env e s).2.2.mnodeman.mapSeenMasternodePing
        = mapInsert s.mnodeman.mapSeenMasternodePing (env.GetHash_mnp (newPing env s))
            (newPing env s)
    ∧ (SendMasternodePing env e s).2.2.mnodeman.mapSeenMasternodeBroadcast
        = mapModify s.mnodeman.mapSeenMasternodeBroadcast
            (env.GetHash_mnb
              (CMasternodeBroadcast.ofMasternode { pmn with lastPing := newPing env s }))
            (fun b => { b with lastPing := newPing env s }) := by
  unfold pingSigned at hsig
  unfold newPing at hp ⊢
  unfold SendMasternodePing
  simp only [hs, hsig, hf, hp, ne_eq, not_true_eq_false, if_false, Bool.true_eq_false,
    Bool.false_eq_true]
  constructor
  · split_ifs <;> rfl
  · split_ifs with hc
    · exact (mapModify_of_mapCount_eq_zero _ _ _ hc).symm
    · rfl

theorem SendMasternodePing_cases (env : Env) (e : String) (s : State) :
    ((SendMasternodePing env e s).1 = false
      ∧ (SendMasternodePing env e s).2.2.mnodeman = s.mnodeman)
    ∨ ((SendMasternodePing env e s).1 = true
      ∧ s.status = ACTIVE_MASTERNODE_STARTED ∧ pingSigned env s = true
      ∧ ∃ i pmn, s.mnodeman.Find_vin s.vin = some (i, pmn)
          ∧ env.IsPingedWithin pmn env.MASTERNODE_PING_SECONDS (newPing env s).sigTime
              = false) := by
  by_cases hs : s.status = ACTIVE_MASTERNODE_STARTED
  · cases hsig : pingSigned env s with
    | false =>
      rw [SendMasternodePing_sign_failed env e s hs hsig]
      exact Or.inl ⟨rfl, rfl⟩
    | true =>
      cases hf : s.mnodeman.Find_vin s.vin with
      | none =>
        rw [SendMasternodePing_unlisted env e s hs hsig hf]
        exact Or.inl ⟨rfl, rfl⟩
      | some ip =>
        obtain ⟨i, pmn⟩ := ip
        cases hp : env.IsPingedWithin pmn env.MASTERNODE_PING_SECONDS (newPing env s).sigTime with
        | true =>
          rw [SendMasternodePing_too_early env e s i pmn hs hsig hf hp]
          exact Or.inl ⟨rfl, rfl⟩
        | false =>
          exact Or.inr ⟨(SendMasternodePing_sent env e s i pmn hs hsig hf hp).1, hs, rfl,
            i, pmn, rfl, hp⟩
  · rw [SendMasternodePing_not_running env e s hs]
    exact Or.inl ⟨rfl, rfl⟩

/-- C13: `SendMasternodePing` never removes a key from the seen-ping cache or
the seen-broadcast cache. A failing call leaves the registry, and so both
caches, unchanged. A successful call is one for a registry entry of the node's
collateral input; its seen-ping cache is the old one after a non-overwriting
insert of the new ping under its hash (a key that was present keeps its value,
the hash of the new ping maps to the new ping if it was absent, nothing else
changes), and its seen-broadcast cache has the same keys as before, every value
unchanged except that under the hash of the node's own broadcast `lastPing` is
the new ping. -/
theorem C13_seen_caches_only_grow (env : Env) (errorMessage : String) (s : State) :
    ((SendMasternodePing env errorMessage s).1 = false →
      (SendMasternodePing env errorMessage s).2.2.mnodeman.mapSeenMasternodePing
        = s.mnodeman.mapSeenMasternodePing
      ∧ (SendMasternodePing env errorMessage s).2.2.mnodeman.mapSeenMasternodeBroadcast
        = s.mnodeman.mapSeenMasternodeBroadcast)
    ∧ ((SendMasternodePing env errorMessage s).1 = true →
      ∃ i pmn, s.mnodeman.Find_vin s.vin = some (i, pmn)
        ∧ (∀ k, mapFind (SendMasternodePing env errorMessage s).2.2.mnodeman.mapSeenMasternodePing k
            = (mapFind s.mnodeman.mapSeenMasternodePing k).orElse
                (fun _ => if k = env.GetHash_mnp (newPing env s) then some (newPing env s)
                  else none))
        ∧ mapCount (SendMasternodePing env errorMessage s).2.2.mnodeman.mapSeenMasternodePing
            (env.GetHash_mnp (newPing env s)) = 1
        ∧ mapKeys (SendMasternodePing env errorMessage s).2.2.mnodeman.mapSeenMasternodeBroadcast
            = mapKeys s.mnodeman.mapSeenMasternodeBroadcast
        ∧ (∀ k, mapFind
              (SendMasternodePing env errorMessage s).2.2.mnodeman.mapSeenMasternodeBroadcast k
            = (mapFind s.mnodeman.mapSeenMasternodeBroadcast k).map
                (fun b =>
                  if k = env.GetHash_mnb
                      (CMasternodeBroadcast.ofMasternode { pmn with lastPing := newPing env s })
                  then { b with lastPing := newPing env s } else b)))
    ∧ (∀ k, mapFind s.mnodeman.mapSeenMasternodePing k ≠ none →
        mapFind (SendMasternodePing env errorMessage s).2.2.mnodeman.mapSeenMasternodePing k
          ≠ none)
    ∧ (∀ k, mapFind s.mnodeman.mapSeenMasternodeBroadcast k ≠ none →
        mapFind (SendMasternodePing env errorMessage s).2.2.mnodeman.mapSeenMasternodeBroadcast k
          ≠ none) := by
  rcases SendMasternodePing_cases env errorMessage s with ⟨h1, h2⟩ | ⟨h1, hs, hsig, i, pmn, hf, hp⟩
  · refine ⟨fun _ => by rw [h2]; exact ⟨rfl, rfl⟩, fun ht => ?_, ?_, ?_⟩
    · rw [h1] at ht
      exact absurd ht (by decide)
    · intro k hk
      rw [h2]
      exact hk
    · intro k hk
      rw [h2]
      exact hk
  · obtain ⟨hping, hbc⟩ := SendMasternodePing_sent_caches env errorMessage s i pmn hs hsig hf hp
    refine ⟨fun hfalse => ?_, fun _ => ⟨i, pmn, hf, ?_, ?_, ?_, ?_⟩, ?_, ?_⟩
    · rw [h1] at hfalse
      exact absurd hfalse (by decide)
    · intro k
      rw [hping]
      exact mapFind_mapInsert _ _ _ k
    · have hfind := mapFind_mapInsert s.mnodeman.mapSeenMasternodePing
        (env.GetHash_mnp (newPing env s)) (newPing env s) (env.GetHash_mnp (newPing env s))
      rw [hping]
      have hne : mapCount (mapInsert s.mnodeman.mapSeenMasternodePing
          (env.GetHash_mnp (newPing env s)) (newPing env s))
          (env.GetHash_mnp (newPing env s)) ≠ 0 := by
        intro hz
        rw [mapCount_eq_zero_iff, hfind] at hz
        cases hold : mapFind s.mnodeman.mapSeenMasternodePing (env.GetHash_mnp (newPing env s))
          <;> simp [hold] at hz
      unfold mapCount at hne ⊢
      split_ifs at hne ⊢
      · rfl
      · exact absurd rfl hne
    · rw [hbc]
      exact mapKeys_mapModify _ _ _
    · intro k
      rw [hbc]
      exact mapFind_mapModify _ _ _ k
    · intro k hk
      rw [hping, mapFind_mapInsert]
      cases hold : mapFind s.mnodeman.mapSeenMasternodePing k with
      | none => exact absurd hold hk
      | some x => simp
    · intro k hk
      rw [hbc, mapFind_mapModify]
      cases hold : mapFind s.mnodeman.mapSeenMasternodeBroadcast k with
      | none => exact absurd hold hk
      | some x => simp

/-- C13 at a concrete input: a successful ping of a node whose caches are
already populated keeps the ping stored under the same hash, keeps both
broadcast keys, and refreshes `lastPing` of its own broadcast only. -/
theorem C13_seen_caches_only_grow_witness :
    (SendMasternodePing envMain "" stStartedSeen).1 = true
    ∧ mapKeys (SendMasternodePing envMain "" stStartedSeen).2.2.mnodeman.mapSeenMasternodeBroadcast
        = [1, 2]
    ∧ mapFind (SendMasternodePing envMain "" stStartedSeen).2.2.mnodeman.mapSeenMasternodePing
        1000 = some default
    ∧ mapFind (SendMasternodePing envMain "" stStartedSeen).2.2.mnodeman.mapSeenMasternodeBroadcast
        2 = some default := by
  have h := C13_seen_caches_only_grow envMain "" stStartedSeen
  have ht : (SendMasternodePing envMain "" stStartedSeen).1 = true := by decide
  obtain ⟨i, pmn, hf, hping, _, hkeys, hbc⟩ := h.2.1 ht
  refine ⟨ht, ?_, ?_, ?_⟩
  · rw [hkeys]
    rfl
  · rw [hping 1000]
    rfl
  · have hpmn : pmn = mnAOld := by
      have h0 : stStartedSeen.mnodeman.Find_vin stStartedSeen.vin = some (0, mnAOld) := by
        decide
      rw [h0] at hf
      simp only [Option.some.injEq, Prod.mk.injEq] at hf
      exact hf.2.symm
    rw [hbc 2, hpmn]
    decide

/-! ### The sync gate -/

theorem ManageStatus_of_pastSyncGate (env : Env) (s : State)
    (hm : env.fMasterNode = true) (hg : pastSyncGate env) :
    ManageStatus env s = ManageStatus_pastGate env s := by
  have hgate : ¬ (env.NetworkIDString ≠ CBaseChainParams.REGTEST
      ∧ env.IsBlockchainSynced = false) := by
    rcases hg with h | h
    · simp [h]
    · simp [h]
  unfold ManageStatus ManageStatus_pastGate
  simp only [hm, hgate, if_false, Bool.true_eq_false]

theorem ManageStatus_status_of_pastSyncGate (env : Env) (s : State)
    (hm : env.fMasterNode = true) (hg : pastSyncGate env) :
    (ManageStatus env s).status ≠ ACTIVE_MASTERNODE_SYNC_IN_PROCESS := by
  rcases ManageStatus_outcome env s hm hg with h | ⟨h | h, _⟩ <;> rw [h] <;> decide

/-- C5: for every prior state of a masternode-enabled node, a tick taken while
the chain is not synchronized on a network other than the regression-test
network changes the status to `SYNC_IN_PROCESS` and nothing else. On the
regression-test network the gate is skipped: whatever the sync status says, the
tick is lines 31-139 (registry lookup, then capability evaluation or ping), it
does not end `SYNC_IN_PROCESS`, and it does not depend on the sync status. A
tick that passes the gate is lines 31-139 and does not end `SYNC_IN_PROCESS`;
it treats a status of `SYNC_IN_PROCESS` exactly as `INITIAL`. -/
theorem C5_sync_gate (env : Env) (s : State) (hm : env.fMasterNode = true) :
    (env.NetworkIDString ≠ CBaseChainParams.REGTEST → env.IsBlockchainSynced = false →
      ManageStatus env s = { s with status := ACTIVE_MASTERNODE_SYNC_IN_PROCESS })
    ∧ (env.NetworkIDString = CBaseChainParams.REGTEST →
      ManageStatus env s = ManageStatus_pastGate env s
      ∧ (ManageStatus env s).status ≠ ACTIVE_MASTERNODE_SYNC_IN_PROCESS
      ∧ ∀ synced : Bool,
          ManageStatus { env with IsBlockchainSynced := synced } s = ManageStatus env s)
    ∧ (pastSyncGate env →
      ManageStatus env s = ManageStatus_pastGate env s
      ∧ (ManageStatus env s).status ≠ ACTIVE_MASTERNODE_SYNC_IN_PROCESS
      ∧ (s.status = ACTIVE_MASTERNODE_SYNC_IN_PROCESS →
          ManageStatus env s = ManageStatus env { s with status := ACTIVE_MASTERNODE_INITIAL }
          ∧ ManageStatus env s
              = ManageStatus_pastGate env { s with status := ACTIVE_MASTERNODE_INITIAL })) := by
  refine ⟨?_, ?_, ?_⟩
  · intro hN hS
    unfold ManageStatus
    simp [hm, hN, hS]
  · intro hN
    refine ⟨ManageStatus_of_pastSyncGate env s hm (Or.inl hN),
      ManageStatus_status_of_pastSyncGate env s hm (Or.inl hN), fun synced => ?_⟩
    have h1 : ∀ t, ManageStatus_initial { env with IsBlockchainSynced := synced } t
        = ManageStatus_initial env t := fun _ => rfl
    have h2 : ∀ e t, ManageStatus_notStarted { env with IsBlockchainSynced := synced } e t
        = ManageStatus_notStarted env e t := fun _ _ => rfl
    have h3 : ∀ e t, SendMasternodePing { env with IsBlockchainSynced := synced } e t
        = SendMasternodePing env e t := fun _ _ => rfl
    unfold ManageStatus
    rw [h1]
    simp only [h2, h3]
    simp only [hN, ne_eq, not_true_eq_false, false_and, if_false]
  · intro hg
    refine ⟨ManageStatus_of_pastSyncGate env s hm hg,
      ManageStatus_status_of_pastSyncGate env s hm hg, fun hs => ?_⟩
    have hi : ManageStatus_initial env s
        = ManageStatus_initial env { s with status := ACTIVE_MASTERNODE_INITIAL } := by
      unfold ManageStatus_initial
      simp [hs]
    have hp : ManageStatus_pastGate env s
        = ManageStatus_pastGate env { s with status := ACTIVE_MASTERNODE_INITIAL } := by
      unfold ManageStatus_pastGate
      simp only [hi]
    rw [ManageStatus_of_pastSyncGate env s hm hg,
      ManageStatus_of_pastSyncGate env { s with status := ACTIVE_MASTERNODE_INITIAL } hm hg]
    exact ⟨hp, hp⟩

/-- C5 at concrete inputs: an unsynced main-network node that was `STARTED`
only changes its status; a fresh regression-test node whose sync status says
false passes the gate and ends its tick `STARTED`; a node leaving sync ticks
like a fresh one and ends `STARTED`. -/
theorem C5_sync_gate_witness :
    ManageStatus envUnsynced stStarted
      = { stStarted with status := ACTIVE_MASTERNODE_SYNC_IN_PROCESS }
    ∧ envRegtest.IsBlockchainSynced = false
    ∧ (ManageStatus envRegtest stFresh).status ≠ ACTIVE_MASTERNODE_SYNC_IN_PROCESS
    ∧ (ManageStatus envRegtest stFresh).status = ACTIVE_MASTERNODE_STARTED
    ∧ ManageStatus { envRegtest with IsBlockchainSynced := true } stFresh
      = ManageStatus envRegtest stFresh
    ∧ ManageStatus envMain stSyncing
      = ManageStatus envMain { stSyncing with status := ACTIVE_MASTERNODE_INITIAL }
    ∧ (ManageStatus envMain stSyncing).status = ACTIVE_MASTERNODE_STARTED := by
  have h1 := (C5_sync_gate envUnsynced stStarted rfl).1 (by decide) rfl
  have h2 := (C5_sync_gate envRegtest stFresh rfl).2.1 (by decide)
  have h3 := (C5_sync_gate envMain stSyncing rfl).2.2 (Or.inr rfl)
  refine ⟨h1, rfl, h2.2.1, ?_, h2.2.2 true, (h3.2.2 rfl).1, ?_⟩
  · rw [h2.1]
    decide
  · rw [(h3.2.2 rfl).2]
    decide

end XSN
